import Mathlib

/-!
# NasalPositioned: argument resolution of the positioned-query entry points

A shallow embedding of `src/Scripting/NasalPositioned.cxx`.  Script values
(`naRef`) are a tagged sum, a call is the list of its arguments (`argc` is the
length of the list, `args[i]` its i-th element), a C++ object reached through a
pointer is the record of what its accessors return, and the two ways a call can
leave the function early (a Nasal runtime error, a read through a null
pointer, a read through a pointer cast to a class the object is not) are the
constructors of `Fault`.

The collaborators the file calls but does not define (the airport and navaid
catalog, the aircraft position, the SimGear geodesy and floating-point
arithmetic) are the fields of `Env`.  The two entry points that query the
catalog return, next to their result, the list of catalog calls they made.
-/

namespace NasalPositioned

/-! ## Values -/

/-- A C `double`, as its IEEE-754 binary64 bit pattern.  The resolution code
only moves doubles between argument slots and coordinate fields; arithmetic on
them is left to the functions of `Env`. -/
structure Double where
  bits : Nat
deriving DecidableEq, Repr

namespace Double

/-- The literal `0.0`. -/
def zero : Double := ⟨0⟩

/-- The literal `1.0`. -/
def one : Double := ⟨0x3FF0000000000000⟩

/-- The literal `10.0`. -/
def ten : Double := ⟨0x4024000000000000⟩

/-- The literal `20.0`. -/
def twenty : Double := ⟨0x4034000000000000⟩

/-- The literal `100.0`. -/
def hundred : Double := ⟨0x4059000000000000⟩

/-- The literal `10000.0`. -/
def tenThousand : Double := ⟨0x40C3880000000000⟩

end Double

/-- SimGear's geodetic coordinate: longitude and latitude in degrees and an
elevation. -/
structure SGGeod where
  lon : Double
  lat : Double
  elev : Double
deriving DecidableEq, Repr

namespace SGGeod

/-- The default constructor `SGGeod()`: all three members zero. -/
def default : SGGeod := ⟨Double.zero, Double.zero, Double.zero⟩

/-- SimGear declares `static SGGeod fromDeg(double lon, double lat)`:
the longitude is the first parameter, the latitude the second, and the
elevation is zero. -/
def fromDeg (lon lat : Double) : SGGeod := ⟨lon, lat, Double.zero⟩

/-- The accessor `getLatitudeDeg()`. -/
def getLatitudeDeg (g : SGGeod) : Double := g.lat

/-- The accessor `getLongitudeDeg()`. -/
def getLongitudeDeg (g : SGGeod) : Double := g.lon

end SGGeod

/-- The enumerators of `FGPositioned::Type` that the file names. -/
inductive PositionedType where
  | INVALID
  | AIRPORT
  | HELIPORT
  | SEAPORT
  | RUNWAY
  | FIX
  | VOR
  | NDB
  | ILS
  | LOC
  | GS
  | DME
  | TACAN
deriving DecidableEq, Repr

/-- An `FGNavRecord`, as the values its accessors return. -/
structure FGNavRecord where
  ident : String
  name : String
  get_freq : Int
  get_lat : Double
  get_lon : Double
  get_elev_ft : Double
  type : PositionedType
  typeName : String
  geod : SGGeod
deriving DecidableEq, Repr

/-- An `FGRunway`, as the values its accessors return; `ILS` is the runway's
localizer when it has one. -/
structure FGRunway where
  ident : String
  latitude : Double
  longitude : Double
  headingDeg : Double
  lengthM : Double
  widthM : Double
  displacedThresholdM : Double
  stopwayM : Double
  ILS : Option FGNavRecord
  geod : SGGeod
deriving DecidableEq, Repr

/-- An `FGAirport`, as the values its accessors return; `runways` lists
`getRunwayByIndex(0 .. numRunways()-1)`. -/
structure FGAirport where
  ident : String
  name : String
  getLatitude : Double
  getLongitude : Double
  getElevation : Double
  getMetar : Bool
  runways : List FGRunway
  type : PositionedType
  geod : SGGeod
deriving DecidableEq, Repr

/-- What an `FGPositioned*` can point to. -/
inductive FGPositioned where
  | airport (a : FGAirport)
  | runway (r : FGRunway)
  | nav (n : FGNavRecord)
  | other (type : PositionedType) (ident : String) (geod : SGGeod)
deriving DecidableEq, Repr

namespace FGPositioned

/-- The accessor `FGPositioned::geod()`. -/
def geod : FGPositioned → SGGeod
  | airport a => a.geod
  | runway r => r.geod
  | nav n => n.geod
  | other _ _ g => g

/-- The accessor `FGPositioned::type()`. -/
def type : FGPositioned → PositionedType
  | airport a => a.type
  | runway _ => PositionedType.RUNWAY
  | nav n => n.type
  | other t _ _ => t

end FGPositioned

/-- A `flightgear::Waypt`: its position and the catalog entity it was made
from, if any. -/
structure Waypt where
  position : SGGeod
  source : Option FGPositioned
deriving DecidableEq, Repr

/-- The payload of a ghost (an opaque handle), by ghost type: `positioned` has
type `PositionedGhostType`, `waypt` has type `WayptGhostType`, `foreign` is a
ghost of any other type.  `ghostForPositioned` and `ghostForWaypt` never wrap
a null pointer, so the first two always carry an object. -/
inductive Ghost where
  | positioned (p : FGPositioned)
  | waypt (w : Waypt)
  | foreign (typeName : String)
deriving DecidableEq, Repr

/-- A Nasal value.  A string is carried as the NUL-terminated character data
that `naStr_data` hands to C, which is the only way this file reads strings;
a hash is the list of its string keys with their values. -/
inductive naRef where
  | nil
  | num (d : Double)
  | str (s : String)
  | vec (xs : List naRef)
  | hash (kv : List (String × naRef))
  | ghost (g : Ghost)
  | func (cfunc : String)

/-- How a call can leave an entry point without returning a value. -/
inductive Fault where
  | runtimeError (msg : String)
  | nullDeref
  | badCast
deriving DecidableEq, Repr

/-- The value `naNil()`. -/
def naNil : naRef := naRef.nil

/-- The constructor `naNum(d)`. -/
def naNum (d : Double) : naRef := naRef.num d

def naIsNil : naRef → Bool
  | naRef.nil => true
  | _ => false

def naIsNum : naRef → Bool
  | naRef.num _ => true
  | _ => false

def naIsString : naRef → Bool
  | naRef.str _ => true
  | _ => false

def naIsHash : naRef → Bool
  | naRef.hash _ => true
  | _ => false

/-- The member read `r.num` of a value that `naIsNum` accepted (and
`naNumValue(r).num` of such a value, `naNumValue` being the identity on
numbers).  It is only used under that guard. -/
def numOf : naRef → Double
  | naRef.num d => d
  | _ => Double.zero

/-- The C string `naStr_data(r)` of a value that `naIsString` accepted. -/
def naStr_data : naRef → String
  | naRef.str s => s
  | _ => ""

/-- The lookup `naHash_cget(hash, key)`: the value stored under the key, nil
when the key is absent or the first argument is no hash. -/
def naHash_cget (r : naRef) (key : String) : naRef :=
  match r with
  | naRef.hash kv => (kv.lookup key).getD naNil
  | _ => naNil

/-- The call `naNewHash(c)`: an empty hash. -/
def naNewHash : naRef := naRef.hash []

/-- Storing a value under a key in the key list of a hash: an existing entry
for the key is replaced, a new key is added at the end. -/
def hashUpdate (kv : List (String × naRef)) (key : String) (val : naRef) :
    List (String × naRef) :=
  if kv.any (fun p => p.1 == key) then
    kv.map (fun p => if p.1 == key then (key, val) else p)
  else kv ++ [(key, val)]

/-- The update `naHash_set(hash, key, val)`, the hash after it; a first
argument that is no hash is left alone. -/
def naHash_set (h : naRef) (key : String) (val : naRef) : naRef :=
  match h with
  | naRef.hash kv => naRef.hash (hashUpdate kv key val)
  | r => r

/-- Source lines 52-57: `hashset` makes a Nasal string of the key and stores
the value under it. -/
def hashset (hash : naRef) (key : String) (val : naRef) : naRef :=
  naHash_set hash key val

/-- Source lines 59-64. -/
def stringToNasal (s : String) : naRef := naRef.str s

/-- The i-th argument `args[i]` of a call. -/
def arg (args : List naRef) (i : Nat) : naRef := args.getD i naNil

/-- Source lines 66-71: the object behind a ghost of type
`PositionedGhostType`, the null pointer (`none`) for anything else. -/
def positionedGhost : naRef → Option FGPositioned
  | naRef.ghost (Ghost.positioned p) => some p
  | _ => none

/-- Source lines 73-78: the object behind a ghost of type `WayptGhostType`,
the null pointer (`none`) for anything else. -/
def wayptGhost : naRef → Option Waypt
  | naRef.ghost (Ghost.waypt w) => some w
  | _ => none

/-- Source lines 240-276.  The second argument is the caller's variable passed
by reference; the function returns its `bool` together with the variable's
value afterwards.  Calling `geod()` or `position()` through the null pointer
that `positionedGhost` / `wayptGhost` returned is `Fault.nullDeref`. -/
def geodFromHash (ref : naRef) (result : SGGeod) : Except Fault (Bool × SGGeod) :=
  if !naIsHash ref then Except.ok (false, result)
  else
    let posGhost := naHash_cget ref "_positioned"
    if !naIsNil posGhost then
      match positionedGhost posGhost with
      | none => Except.error Fault.nullDeref
      | some pos => Except.ok (true, pos.geod)
    else
      let ghost := naHash_cget ref "_waypt"
      if !naIsNil ghost then
        match wayptGhost ghost with
        | none => Except.error Fault.nullDeref
        | some w => Except.ok (true, w.position)
      else
        let lat := naHash_cget ref "lat"
        let lon := naHash_cget ref "lon"
        if naIsNum lat && naIsNum lon then
          Except.ok (true, SGGeod.fromDeg (numOf lat) (numOf lon))
        else Except.ok (false, result)

/-! ## Collaborators -/

/-- Source lines 350-365: the filter handed to `FGAirport::findClosest`.  The
constructor sets `type` to `AIRPORT`; `minType()` and `maxType()` both return
`type`. -/
structure AirportInfoFilter where
  type : PositionedType := PositionedType.AIRPORT
deriving DecidableEq, Repr

namespace AirportInfoFilter

def minType (f : AirportInfoFilter) : PositionedType := f.type

def maxType (f : AirportInfoFilter) : PositionedType := f.type

end AirportInfoFilter

/-- A call into the catalog, with its arguments. -/
inductive CatalogCall where
  | findByIdent (ident : String)
  | findClosest (pos : SGGeod) (cutoffNm : Double) (filter : AirportInfoFilter)
  | findByIdentAndFreq (pos : SGGeod) (ident : String) (freq : Double) (type : PositionedType)
deriving DecidableEq, Repr

/-- What the file calls and does not define.
* `aircraft_position` is `globals->get_aircraft_position()`, `getJD` is
  `globals->get_time_params()->getJD()`;
* `findByIdent`, `findClosest` are the static functions of `FGAirport`,
  `findByIdentAndFreq` the function of `globals->get_navlist()`;
* `mul`, `div`, `ofInt` are the arithmetic of `double` and the conversion
  from `int`; the `SG_...` fields are the constants of SimGear;
* `distanceNm`, `courseDeg`, `inverse` (course, second course, distance) are
  `SGGeodesy`; `sgGetMagVar`, `sgCartToGeod`, `sgGeodToCart` the SimGear
  functions of these names; `gen_base_path` is
  `SGBucket(pos).gen_base_path()`;
* `numValueOther` is `naNumValue(r).num` for a value `r` that is no number. -/
structure Env where
  aircraft_position : SGGeod
  getJD : Double
  findByIdent : String → Option FGAirport
  findClosest : SGGeod → Double → AirportInfoFilter → Option FGAirport
  findByIdentAndFreq : SGGeod → String → Double → PositionedType → List FGNavRecord
  mul : Double → Double → Double
  div : Double → Double → Double
  ofInt : Int → Double
  SG_FEET_TO_METER : Double
  SG_NM_TO_METER : Double
  SG_METER_TO_NM : Double
  SG_RADIANS_TO_DEGREES : Double
  SG_DEGREES_TO_RADIANS : Double
  distanceNm : SGGeod → SGGeod → Double
  courseDeg : SGGeod → SGGeod → Double
  inverse : SGGeod → SGGeod → Double × Double × Double
  sgGetMagVar : SGGeod → Double → Double
  sgCartToGeod : Double → Double → Double → Double × Double × Double
  sgGeodToCart : Double → Double → Double → Double × Double × Double
  gen_base_path : SGGeod → String
  numValueOther : naRef → Double

/-- The read `naNumValue(r).num` without a guard. -/
def naNumValue_num (e : Env) : naRef → Double
  | naRef.num d => d
  | r => e.numValueOther r

/-- What an entry point that queries the catalog did: the catalog calls it
made, in order, and how it ended. -/
structure Reply where
  calls : List CatalogCall
  out : Except Fault naRef

/-! ## Record builders -/

/-- Source lines 836-839: the prototype hash of airport records, as
`initNasalPositioned` fills it. -/
def airportPrototype : naRef :=
  hashset (hashset (hashset (hashset naNewHash
    "tower" (naRef.func "f_airport_tower"))
    "comms" (naRef.func "f_airport_comms"))
    "sids" (naRef.func "f_airport_sids"))
    "stars" (naRef.func "f_airport_stars")

/-- Source lines 90-98: nil for the null pointer, a ghost of type
`PositionedGhostType` otherwise. -/
def ghostForPositioned (pos : Option FGPositioned) : naRef :=
  match pos with
  | none => naNil
  | some p => naRef.ghost (Ghost.positioned p)

/-- Source lines 100-108. -/
def ghostForWaypt (wpt : Option Waypt) : naRef :=
  match wpt with
  | none => naNil
  | some w => naRef.ghost (Ghost.waypt w)

/-- Source lines 217-238. -/
def hashForNavRecord (e : Env) (nav : FGNavRecord) (rel : SGGeod) : naRef :=
  let navdata := naNewHash
  let navdata := naHash_set navdata "id" (stringToNasal nav.ident)
  let navdata := naHash_set navdata "name" (stringToNasal nav.name)
  let navdata := naHash_set navdata "frequency" (naNum (e.ofInt nav.get_freq))
  let navdata := naHash_set navdata "lat" (naNum nav.get_lat)
  let navdata := naHash_set navdata "lon" (naNum nav.get_lon)
  let navdata := naHash_set navdata "elevation" (naNum (e.mul nav.get_elev_ft e.SG_FEET_TO_METER))
  let navdata := naHash_set navdata "type" (stringToNasal nav.typeName)
  let navdata := naHash_set navdata "distance"
    (naNum (e.mul (e.distanceNm rel nav.geod) e.SG_NM_TO_METER))
  let navdata := naHash_set navdata "bearing" (naNum (e.courseDeg rel nav.geod))
  let navdata := naHash_set navdata "_positioned"
    (ghostForPositioned (some (FGPositioned.nav nav)))
  navdata

/-- Source lines 193-215. -/
def hashForRunway (e : Env) (rwy : FGRunway) : naRef :=
  let rwyid := stringToNasal rwy.ident
  let rwydata := naNewHash
  let rwydata := naHash_set rwydata "id" rwyid
  let rwydata := naHash_set rwydata "lat" (naNum rwy.latitude)
  let rwydata := naHash_set rwydata "lon" (naNum rwy.longitude)
  let rwydata := naHash_set rwydata "heading" (naNum rwy.headingDeg)
  let rwydata := naHash_set rwydata "length" (naNum rwy.lengthM)
  let rwydata := naHash_set rwydata "width" (naNum rwy.widthM)
  let rwydata := naHash_set rwydata "threshold" (naNum rwy.displacedThresholdM)
  let rwydata := naHash_set rwydata "stopway" (naNum rwy.stopwayM)
  let rwydata :=
    match rwy.ILS with
    | some ils =>
      naHash_set
        (naHash_set rwydata "ils_frequency_mhz"
          (naNum (e.div (e.ofInt ils.get_freq) Double.hundred)))
        "ils" (hashForNavRecord e ils SGGeod.default)
    | none => rwydata
  let rwydata := naHash_set rwydata "_positioned"
    (ghostForPositioned (some (FGPositioned.runway rwy)))
  rwydata

/-- Source lines 110-138. -/
def hashForAirport (e : Env) (apt : FGAirport) : naRef :=
  let id := apt.ident
  let name := apt.name
  let rwys := apt.runways.foldl
    (fun rwys rwy => naHash_set rwys rwy.ident (hashForRunway e rwy)) naNewHash
  let aptdata := naNewHash
  let aptdata := hashset aptdata "id" (stringToNasal id)
  let aptdata := hashset aptdata "name" (stringToNasal name)
  let aptdata := hashset aptdata "lat" (naNum apt.getLatitude)
  let aptdata := hashset aptdata "lon" (naNum apt.getLongitude)
  let aptdata := hashset aptdata "elevation" (naNum (e.mul apt.getElevation e.SG_FEET_TO_METER))
  let aptdata := hashset aptdata "has_metar"
    (naNum (if apt.getMetar then Double.one else Double.zero))
  let aptdata := hashset aptdata "runways" rwys
  let aptdata := hashset aptdata "_positioned"
    (ghostForPositioned (some (FGPositioned.airport apt)))
  let parents := naRef.vec [airportPrototype]
  let aptdata := hashset aptdata "parents" parents
  aptdata

/-! ## Entry points -/

/-- Source lines 279-293. -/
def f_carttogeod (e : Env) (args : List naRef) : Except Fault naRef :=
  if args.length != 3 then
    Except.error (Fault.runtimeError "carttogeod() expects 3 arguments")
  else
    let xyz := fun i => naNumValue_num e (arg args i)
    match e.sgCartToGeod (xyz 0) (xyz 1) (xyz 2) with
    | (lat, lon, alt) =>
      let lat := e.mul lat e.SG_RADIANS_TO_DEGREES
      let lon := e.mul lon e.SG_RADIANS_TO_DEGREES
      Except.ok (naRef.vec [naNum lat, naNum lon, naNum alt])

/-- Source lines 296-309. -/
def f_geodtocart (e : Env) (args : List naRef) : Except Fault naRef :=
  if args.length != 3 then
    Except.error (Fault.runtimeError "geodtocart() expects 3 arguments")
  else
    let lat := e.mul (naNumValue_num e (arg args 0)) e.SG_DEGREES_TO_RADIANS
    let lon := e.mul (naNumValue_num e (arg args 1)) e.SG_DEGREES_TO_RADIANS
    let alt := naNumValue_num e (arg args 2)
    match e.sgGeodToCart lat lon alt with
    | (x, y, z) => Except.ok (naRef.vec [naNum x, naNum y, naNum z])

/-- Source lines 376-385 of `f_airportinfo`: the search origin and the
arguments left after a leading pair of numbers. -/
def f_airportinfo_pos (e : Env) (args : List naRef) : SGGeod × List naRef :=
  if args.length ≥ 2 && naIsNum (arg args 0) && naIsNum (arg args 1) then
    (SGGeod.fromDeg (numOf (arg args 1)) (numOf (arg args 0)), args.drop 2)
  else (e.aircraft_position, args)

/-- The literal `10000.0` of source line 387. -/
def maxRange : Double := Double.tenThousand

/-- Source lines 413-418 of `f_airportinfo`: with no airport found by
identifier, ask the catalog for the closest one that passes the filter. -/
def f_airportinfo_finish (e : Env) (pos : SGGeod) (filter : AirportInfoFilter)
    (calls : List CatalogCall) (apt : Option FGAirport) : Reply :=
  match apt with
  | some a => ⟨calls, Except.ok (hashForAirport e a)⟩
  | none =>
    match e.findClosest pos maxRange filter with
    | none => ⟨calls ++ [CatalogCall.findClosest pos maxRange filter], Except.ok naNil⟩
    | some a =>
      ⟨calls ++ [CatalogCall.findClosest pos maxRange filter], Except.ok (hashForAirport e a)⟩

/-- Source lines 374-419. -/
def f_airportinfo (e : Env) (args0 : List naRef) : Reply :=
  match f_airportinfo_pos e args0 with
  | (pos, args) =>
    let filter : AirportInfoFilter := {}
    if args.length == 0 then
      f_airportinfo_finish e pos filter [] none
    else if args.length == 1 && naIsString (arg args 0) then
      let s := naStr_data (arg args 0)
      if s = "airport" then
        f_airportinfo_finish e pos { filter with type := PositionedType.AIRPORT } [] none
      else if s = "seaport" then
        f_airportinfo_finish e pos { filter with type := PositionedType.SEAPORT } [] none
      else if s = "heliport" then
        f_airportinfo_finish e pos { filter with type := PositionedType.HELIPORT } [] none
      else
        match e.findByIdent s with
        | none => ⟨[CatalogCall.findByIdent s], Except.ok naNil⟩
        | some a => f_airportinfo_finish e pos filter [CatalogCall.findByIdent s] (some a)
    else
      ⟨[], Except.error (Fault.runtimeError "airportinfo() with invalid function arguments")⟩

/-- Source lines 557-565 of `f_navinfo`: the search origin and the arguments
left after a leading pair of numbers. -/
def f_navinfo_pos (e : Env) (args : List naRef) : SGGeod × List naRef :=
  if args.length ≥ 2 && naIsNum (arg args 0) && naIsNum (arg args 1) then
    (SGGeod.fromDeg (numOf (arg args 1)) (numOf (arg args 0)), args.drop 2)
  else (e.aircraft_position, args)

/-- Source lines 571-583 of `f_navinfo`: a first string is a type keyword or
an identifier; the type, the identifier and the arguments left. -/
def f_navinfo_type (args : List naRef) : PositionedType × String × List naRef :=
  let type := PositionedType.INVALID
  let id := ""
  if args.length > 0 && naIsString (arg args 0) then
    let s := naStr_data (arg args 0)
    if s = "any" then (PositionedType.INVALID, id, args.drop 1)
    else if s = "fix" then (PositionedType.FIX, id, args.drop 1)
    else if s = "vor" then (PositionedType.VOR, id, args.drop 1)
    else if s = "ndb" then (PositionedType.NDB, id, args.drop 1)
    else if s = "ils" then (PositionedType.ILS, id, args.drop 1)
    else if s = "dme" then (PositionedType.DME, id, args.drop 1)
    else if s = "tacan" then (PositionedType.TACAN, id, args.drop 1)
    else (type, s, args.drop 1)
  else (type, id, args)

/-- Source lines 585-593 of `f_navinfo`: a further string is the identifier,
unless one was already read. -/
def f_navinfo_id (id : String) (args : List naRef) : Except Fault (String × List naRef) :=
  if args.length > 0 && naIsString (arg args 0) then
    if id ≠ "" then
      Except.error (Fault.runtimeError "navinfo() called with navaid id")
    else Except.ok (naStr_data (arg args 0), args.drop 1)
  else Except.ok (id, args)

/-- Source lines 555-607. -/
def f_navinfo (e : Env) (args0 : List naRef) : Reply :=
  match f_navinfo_pos e args0 with
  | (pos, args) =>
    match f_navinfo_type args with
    | (type, id, args) =>
      match f_navinfo_id id args with
      | Except.error f => ⟨[], Except.error f⟩
      | Except.ok (id, args) =>
        if args.length > 0 then
          ⟨[], Except.error (Fault.runtimeError "navinfo() called with too many arguments")⟩
        else
          let navlist := e.findByIdentAndFreq pos id Double.zero type
          ⟨[CatalogCall.findByIdentAndFreq pos id Double.zero type],
            Except.ok (naRef.vec (navlist.map (fun it => hashForNavRecord e it pos)))⟩

/-- Source lines 612-623 of `f_magvar`: the position the variation is
computed at. -/
def f_magvar_pos (e : Env) (args : List naRef) : Except Fault SGGeod :=
  let pos := e.aircraft_position
  if args.length == 0 then Except.ok pos
  else
    match (if args.length == 1 then geodFromHash (arg args 0) pos
           else Except.ok (false, pos)) with
    | Except.error f => Except.error f
    | Except.ok (true, pos) => Except.ok pos
    | Except.ok (false, _) =>
      if args.length == 2 && naIsNum (arg args 0) && naIsNum (arg args 1) then
        let lat := numOf (arg args 0)
        let lon := numOf (arg args 1)
        Except.ok (SGGeod.fromDeg lon lat)
      else
        Except.error (Fault.runtimeError
          "magvar() expects no arguments, a positioned hash or lat,lon pair")

/-- Source lines 610-628. -/
def f_magvar (e : Env) (args : List naRef) : Except Fault naRef :=
  match f_magvar_pos e args with
  | Except.error f => Except.error f
  | Except.ok pos =>
    let jd := e.getJD
    let magvarDeg := e.mul (e.sgGetMagVar pos jd) e.SG_RADIANS_TO_DEGREES
    Except.ok (naNum magvarDeg)

/-- Source lines 632-659 of `f_courseAndDistance`: the two points `from` and
`to`.  Both are variables that `geodFromHash` writes through a reference, so
each test of the chain is given the variables as the earlier tests left
them. -/
def f_courseAndDistance_points (e : Env) (args : List naRef) :
    Except Fault (SGGeod × SGGeod) :=
  let argc := args.length
  let from0 := e.aircraft_position
  let to0 := SGGeod.default
  match (if argc == 1 then geodFromHash (arg args 0) to0 else Except.ok (false, to0)) with
  | Except.error f => Except.error f
  | Except.ok (true, to1) => Except.ok (from0, to1)
  | Except.ok (false, to1) =>
    if argc == 2 && naIsNum (arg args 0) && naIsNum (arg args 1) then
      let lat := numOf (arg args 0)
      let lon := numOf (arg args 1)
      Except.ok (from0, SGGeod.fromDeg lon lat)
    else
      match (if argc == 2 then geodFromHash (arg args 0) from0
             else Except.ok (false, from0)) with
      | Except.error f => Except.error f
      | Except.ok (c3, from1) =>
        match (if c3 then geodFromHash (arg args 1) to1 else Except.ok (false, to1)) with
        | Except.error f => Except.error f
        | Except.ok (true, to2) => Except.ok (from1, to2)
        | Except.ok (false, to2) =>
          match (if argc == 3 then geodFromHash (arg args 0) from1
                 else Except.ok (false, from1)) with
          | Except.error f => Except.error f
          | Except.ok (c4, from2) =>
            if c4 && naIsNum (arg args 1) && naIsNum (arg args 2) then
              let lat := numOf (arg args 1)
              let lon := numOf (arg args 2)
              Except.ok (from2, SGGeod.fromDeg lon lat)
            else
              match (if argc == 3 && naIsNum (arg args 0) && naIsNum (arg args 1) then
                       geodFromHash (arg args 2) to2
                     else Except.ok (false, to2)) with
              | Except.error f => Except.error f
              | Except.ok (true, to3) =>
                let lat := numOf (arg args 0)
                let lon := numOf (arg args 1)
                Except.ok (SGGeod.fromDeg lon lat, to3)
              | Except.ok (false, _) =>
                if argc == 4 then
                  if !naIsNum (arg args 0) || !naIsNum (arg args 1)
                      || !naIsNum (arg args 2) || !naIsNum (arg args 3) then
                    Except.error (Fault.runtimeError
                      "invalid arguments to courseAndDistance - expected four numbers")
                  else
                    Except.ok (SGGeod.fromDeg (numOf (arg args 1)) (numOf (arg args 0)),
                      SGGeod.fromDeg (numOf (arg args 3)) (numOf (arg args 2)))
                else
                  Except.error (Fault.runtimeError "invalid arguments to courseAndDistance")

/-- Source lines 630-668. -/
def f_courseAndDistance (e : Env) (args : List naRef) : Except Fault naRef :=
  match f_courseAndDistance_points e args with
  | Except.error f => Except.error f
  | Except.ok (from1, to1) =>
    match e.inverse from1 to1 with
    | (course, _, d) =>
      Except.ok (naRef.vec [naNum course, naNum (e.mul d e.SG_METER_TO_NM)])

/-- Source lines 672-683 of `f_tilePath`: the position whose tile is named. -/
def f_tilePath_pos (e : Env) (args : List naRef) : Except Fault SGGeod :=
  let pos := e.aircraft_position
  if args.length == 0 then Except.ok pos
  else
    match (if args.length == 1 then geodFromHash (arg args 0) pos
           else Except.ok (false, pos)) with
    | Except.error f => Except.error f
    | Except.ok (true, pos) => Except.ok pos
    | Except.ok (false, _) =>
      if args.length == 2 && naIsNum (arg args 0) && naIsNum (arg args 1) then
        let lat := numOf (arg args 0)
        let lon := numOf (arg args 1)
        Except.ok (SGGeod.fromDeg lon lat)
      else
        Except.error (Fault.runtimeError
          "bucketPath() expects no arguments, a positioned hash or lat,lon pair")

/-- Source lines 670-687: `bucketPath` in the function table. -/
def f_tilePath (e : Env) (args : List naRef) : Except Fault naRef :=
  match f_tilePath_pos e args with
  | Except.error f => Except.error f
  | Except.ok pos => Except.ok (stringToNasal (e.gen_base_path pos))

/-! ## Waypoint methods -/

/-- Modelled from the spec: `FGAirport::isAirportType` is declared in
`Airports/simple.hxx`, which is not among the sources; an entity is of an
airport type when its type is one of the three airport kinds (airport,
heliport, seaport). -/
def isAirportType (pos : FGPositioned) : Bool :=
  pos.type == PositionedType.AIRPORT || pos.type == PositionedType.HELIPORT
    || pos.type == PositionedType.SEAPORT

/-- The cast `(FGAirport*) pos` and the reads of the airport's members that
follow it: the airport when the object is one, `Fault.badCast` otherwise. -/
def asAirport : FGPositioned → Except Fault FGAirport
  | FGPositioned.airport a => Except.ok a
  | _ => Except.error Fault.badCast

/-- The cast `(FGRunway*) pos` and the reads of the runway's members that
follow it. -/
def asRunway : FGPositioned → Except Fault FGRunway
  | FGPositioned.runway r => Except.ok r
  | _ => Except.error Fault.badCast

/-- Source lines 421-434: the airport behind the `_positioned` field of a
record, the null pointer (`none`) when the field is nil, is no positioned
ghost, or is a ghost of an entity that is not of an airport type. -/
def airportFromMe (me : naRef) : Except Fault (Option FGAirport) :=
  let ghost := naHash_cget me "_positioned"
  if naIsNil ghost then Except.ok none
  else
    match positionedGhost ghost with
    | none => Except.ok none
    | some pos =>
      if isAirportType pos then
        match asAirport pos with
        | Except.error f => Except.error f
        | Except.ok a => Except.ok (some a)
      else Except.ok none

/-- Source lines 747-755: the waypoint behind the `_waypt` field of a record,
the null pointer (`none`) when the field is nil or no waypoint ghost. -/
def wayptFromMe (me : naRef) : Option Waypt :=
  let ghost := naHash_cget me "_waypt"
  if naIsNil ghost then none
  else wayptGhost ghost

/-- Source lines 786-799: the method `airport` of a waypoint record `me`. -/
def f_waypoint_airport (e : Env) (me : naRef) (_args : List naRef) : Except Fault naRef :=
  match wayptFromMe me with
  | none => Except.error (Fault.runtimeError "waypoint.navaid called on non-waypoint object")
  | some w =>
    match w.source with
    | none => Except.ok naNil
    | some pos =>
      if isAirportType pos then Except.ok naNil
      else
        match asAirport pos with
        | Except.error f => Except.error f
        | Except.ok a => Except.ok (hashForAirport e a)

/-- Source lines 801-814: the method `runway` of a waypoint record `me`. -/
def f_waypoint_runway (e : Env) (me : naRef) (_args : List naRef) : Except Fault naRef :=
  match wayptFromMe me with
  | none => Except.error (Fault.runtimeError "waypoint.navaid called on non-waypoint object")
  | some w =>
    match w.source with
    | none => Except.ok naNil
    | some pos =>
      if pos.type != PositionedType.RUNWAY then Except.ok naNil
      else
        match asRunway pos with
        | Except.error f => Except.error f
        | Except.ok r => Except.ok (hashForRunway e r)

/-! ## Auxiliary definitions for the proofs -/

/-- What `geodFromHash` finds in a value, apart from the caller's variable:
a fault, a position (`some`), or nothing (`none`).  Lemma `geodFromHash_eq`
relates it to `geodFromHash`. -/
def geodOfHash (ref : naRef) : Except Fault (Option SGGeod) :=
  match geodFromHash ref SGGeod.default with
  | Except.error f => Except.error f
  | Except.ok (true, p) => Except.ok (some p)
  | Except.ok (false, _) => Except.ok none

/-! ## The documented call form of `navinfo` -/

/-- The type each keyword of the comment above `f_navinfo` (source lines
543-554) stands for, "any" standing for the unrestricted type `INVALID`; no
value for a string that is not one of the seven keywords. -/
def navinfoKeywordType (s : String) : Option PositionedType :=
  if s = "any" then some PositionedType.INVALID
  else if s = "fix" then some PositionedType.FIX
  else if s = "vor" then some PositionedType.VOR
  else if s = "ndb" then some PositionedType.NDB
  else if s = "ils" then some PositionedType.ILS
  else if s = "dme" then some PositionedType.DME
  else if s = "tacan" then some PositionedType.TACAN
  else none

/-- The argument list of a call `navinfo([lat, lon,] [type,] [id])`: the
parts that are given, in this order. -/
def navinfoCall (latlon : Option (Double × Double)) (keyword : Option String)
    (id : Option String) : List naRef :=
  (match latlon with
    | some (lat, lon) => [naRef.num lat, naRef.num lon]
    | none => [])
  ++ (match keyword with
    | some k => [naRef.str k]
    | none => [])
  ++ (match id with
    | some s => [naRef.str s]
    | none => [])

/-! ## A test world -/

/-- A navaid record of the test world. -/
def hamVor : FGNavRecord :=
  { ident := "HAM", name := "HAMBURG VOR", get_freq := 11310,
    get_lat := Double.ten, get_lon := Double.twenty, get_elev_ft := Double.hundred,
    type := PositionedType.VOR, typeName := "VOR",
    geod := ⟨Double.twenty, Double.ten, Double.zero⟩ }

/-- An airport of the test world. -/
def ksfo : FGAirport :=
  { ident := "KSFO", name := "San Francisco Intl", getLatitude := Double.ten,
    getLongitude := Double.twenty, getElevation := Double.hundred, getMetar := true,
    runways := [], type := PositionedType.AIRPORT,
    geod := ⟨Double.twenty, Double.ten, Double.zero⟩ }

/-- A test world: the aircraft at longitude 1.0, latitude 100.0; a catalog
with the one airport `ksfo` and the one navaid `hamVor`; arithmetic and
geodesy replaced by projections. -/
def env0 : Env :=
  { aircraft_position := ⟨Double.one, Double.hundred, Double.zero⟩
    getJD := Double.zero
    findByIdent := fun s => if s = "KSFO" then some ksfo else none
    findClosest := fun _ _ f => if f.type = PositionedType.AIRPORT then some ksfo else none
    findByIdentAndFreq := fun _ id _ t =>
      if (t = PositionedType.INVALID ∨ t = PositionedType.VOR) ∧ (id = "" ∨ id = "HAM")
      then [hamVor] else []
    mul := fun a _ => a
    div := fun a _ => a
    ofInt := fun i => ⟨i.toNat⟩
    SG_FEET_TO_METER := Double.one
    SG_NM_TO_METER := Double.one
    SG_METER_TO_NM := Double.one
    SG_RADIANS_TO_DEGREES := Double.one
    SG_DEGREES_TO_RADIANS := Double.one
    distanceNm := fun _ _ => Double.zero
    courseDeg := fun _ _ => Double.zero
    inverse := fun _ _ => (Double.zero, Double.zero, Double.zero)
    sgGetMagVar := fun _ _ => Double.zero
    sgCartToGeod := fun x y z => (x, y, z)
    sgGeodToCart := fun x y z => (x, y, z)
    gen_base_path := fun _ => ""
    numValueOther := fun _ => Double.zero }

/-- The record `airportinfo` builds for `ksfo` in the test world. -/
def ksfoRecord : naRef := hashForAirport env0 ksfo

/-- A waypoint record of the test world: a hash whose `_waypt` field is the
ghost of a waypoint at longitude 10.0, latitude 20.0. -/
def wayptRecord : naRef :=
  naRef.hash [("_waypt", ghostForWaypt (some ⟨⟨Double.ten, Double.twenty, Double.zero⟩, none⟩))]

/-- A record of the test world whose `_positioned` field is the number 1.0,
as the script expression `{ _positioned: 1 }` builds it. -/
def numberAsPositioned : naRef := naRef.hash [("_positioned", naRef.num Double.one)]

/-- A record of the test world whose `_waypt` field is the number 1.0. -/
def numberAsWaypt : naRef := naRef.hash [("_waypt", naRef.num Double.one)]

/-- A waypoint record of the test world whose waypoint was made from the
airport `ksfo`. -/
def wayptAtKsfo : naRef :=
  naRef.hash [("_waypt", ghostForWaypt (some ⟨ksfo.geod, some (FGPositioned.airport ksfo)⟩))]

/-- A waypoint record of the test world whose waypoint was made from the
navaid `hamVor`. -/
def wayptAtHam : naRef :=
  naRef.hash [("_waypt", ghostForWaypt (some ⟨hamVor.geod, some (FGPositioned.nav hamVor)⟩))]

/-- A runway of the test world. -/
def rwy28L : FGRunway :=
  { ident := "28L", latitude := Double.ten, longitude := Double.twenty,
    headingDeg := Double.hundred, lengthM := Double.tenThousand, widthM := Double.hundred,
    displacedThresholdM := Double.zero, stopwayM := Double.zero, ILS := none,
    geod := ⟨Double.twenty, Double.ten, Double.zero⟩ }

/-- A waypoint record of the test world whose waypoint was made from the
runway `rwy28L`. -/
def wayptAtRunway : naRef :=
  naRef.hash [("_waypt", ghostForWaypt (some ⟨rwy28L.geod, some (FGPositioned.runway rwy28L)⟩))]

/-- A record of the test world with the plain fields `lat` = 10.0 and
`lon` = 20.0 and no handle field, as the script expression
`{ lat: 10, lon: 20 }` builds it. -/
def latLonRecord : naRef :=
  naRef.hash [("lat", naRef.num Double.ten), ("lon", naRef.num Double.twenty)]

/-! ## Theorems -/

/-- C1 (the code at the failing input): for the record with `lat` = 10.0 and
`lon` = 20.0 and no handle field, `geodFromHash` succeeds with a coordinate of
latitude 20.0 and longitude 10.0: the two fields are passed to `fromDeg` in
the order latitude, longitude, while `fromDeg` takes the longitude first. -/
theorem geodFromHash_lat_lon_swapped :
    geodFromHash (naRef.hash [("lat", naRef.num Double.ten), ("lon", naRef.num Double.twenty)])
        SGGeod.default
      = Except.ok (true, { lon := Double.ten, lat := Double.twenty, elev := Double.zero })
    ∧ SGGeod.getLatitudeDeg { lon := Double.ten, lat := Double.twenty, elev := Double.zero }
        = Double.twenty
    ∧ SGGeod.getLongitudeDeg { lon := Double.ten, lat := Double.twenty, elev := Double.zero }
        = Double.ten
    ∧ Double.ten ≠ Double.twenty := by
  refine ⟨by rfl, rfl, rfl, by decide⟩

/-! ## Lemmas on `geodFromHash` -/

theorem geodFromHash_eq (ref : naRef) (r : SGGeod) :
    geodFromHash ref r
      = (match geodOfHash ref with
        | Except.error f => Except.error f
        | Except.ok (some p) => Except.ok (true, p)
        | Except.ok none => Except.ok (false, r)) := by
  unfold geodOfHash geodFromHash
  by_cases h1 : naIsHash ref = true
  · by_cases h2 : naIsNil (naHash_cget ref "_positioned") = true
    · by_cases h3 : naIsNil (naHash_cget ref "_waypt") = true
      · by_cases h4 : (naIsNum (naHash_cget ref "lat") && naIsNum (naHash_cget ref "lon")) = true
        · simp [h1, h2, h3, h4]
        · simp [h1, h2, h3, h4]
      · cases h5 : wayptGhost (naHash_cget ref "_waypt") <;> simp [h1, h2, h3, h5]
    · cases h5 : positionedGhost (naHash_cget ref "_positioned") <;> simp [h1, h2, h5]
  · simp [h1]

theorem geodOfHash_of_true {ref : naRef} {r p : SGGeod}
    (h : geodFromHash ref r = Except.ok (true, p)) : geodOfHash ref = Except.ok (some p) := by
  rw [geodFromHash_eq] at h
  cases hg : geodOfHash ref with
  | error f => simp [hg] at h
  | ok o =>
    cases o with
    | none => simp [hg] at h
    | some q =>
      simp [hg] at h
      rw [h]

theorem geodOfHash_of_isNum {a : naRef} (h : naIsNum a = true) :
    geodOfHash a = Except.ok none := by
  cases a <;> simp [naIsNum] at h
  rfl

theorem isNum_false_of_geodOfHash {a : naRef} {p : SGGeod}
    (h : geodOfHash a = Except.ok (some p)) : naIsNum a = false := by
  cases hn : naIsNum a
  · rfl
  · rw [geodOfHash_of_isNum hn] at h
    simp at h

theorem isNum_iff (a : naRef) : naIsNum a = true ↔ ∃ d, a = naRef.num d := by
  cases a <;> simp [naIsNum]

/-- C2: a leading pair of numbers (a, b) is read as latitude a, longitude b
by all five entry points: `airportinfo` and `navinfo` (whatever follows the
pair) search from that coordinate, `magvar` and `bucketPath` compute at it, and
`courseAndDistance` takes it as the destination, the origin being the aircraft
position. -/
theorem two_numbers_are_lat_lon (e : Env) (a b : Double) (rest : List naRef) :
    (f_airportinfo_pos e (naRef.num a :: naRef.num b :: rest)).1
        = { lat := a, lon := b, elev := Double.zero }
    ∧ (f_airportinfo e [naRef.num a, naRef.num b]).calls
        = [CatalogCall.findClosest { lat := a, lon := b, elev := Double.zero } maxRange {}]
    ∧ (f_navinfo_pos e (naRef.num a :: naRef.num b :: rest)).1
        = { lat := a, lon := b, elev := Double.zero }
    ∧ (f_navinfo e [naRef.num a, naRef.num b]).calls
        = [CatalogCall.findByIdentAndFreq { lat := a, lon := b, elev := Double.zero } ""
            Double.zero PositionedType.INVALID]
    ∧ f_magvar_pos e [naRef.num a, naRef.num b]
        = Except.ok { lat := a, lon := b, elev := Double.zero }
    ∧ f_tilePath_pos e [naRef.num a, naRef.num b]
        = Except.ok { lat := a, lon := b, elev := Double.zero }
    ∧ f_courseAndDistance_points e [naRef.num a, naRef.num b]
        = Except.ok (e.aircraft_position, { lat := a, lon := b, elev := Double.zero })
    ∧ (SGGeod.mk b a Double.zero).getLatitudeDeg = a
    ∧ (SGGeod.mk b a Double.zero).getLongitudeDeg = b := by
  refine ⟨?_, ?_, ?_, rfl, rfl, rfl, rfl, rfl, rfl⟩
  · simp [f_airportinfo_pos, arg, naIsNum, numOf, SGGeod.fromDeg]
  rotate_left
  · simp [f_navinfo_pos, arg, naIsNum, numOf, SGGeod.fromDeg]
  cases h : e.findClosest { lat := a, lon := b, elev := Double.zero } maxRange {} <;>
    simp [f_airportinfo, f_airportinfo_pos, f_airportinfo_finish, arg, naIsNum, numOf,
      SGGeod.fromDeg, h]

/-- C3 (as stated, refuted): in the test world `courseAndDistance()` with no
argument does not resolve to the aircraft position; it raises the runtime
error of the last branch. -/
theorem courseAndDistance_no_args_raises :
    f_courseAndDistance_points env0 []
        = Except.error (Fault.runtimeError "invalid arguments to courseAndDistance")
    ∧ f_courseAndDistance env0 []
        = Except.error (Fault.runtimeError "invalid arguments to courseAndDistance") :=
  ⟨rfl, rfl⟩

/-- C3 (amended): with no argument, `airportinfo`, `navinfo`, `magvar` and
`bucketPath` resolve to the aircraft position and return without an error
(`airportinfo` searches the closest airport from it, `navinfo` queries the
navaids from it); `courseAndDistance` with no argument raises a runtime
error. -/
theorem no_args_use_aircraft_position (e : Env) :
    (f_airportinfo_pos e []).1 = e.aircraft_position
    ∧ (f_airportinfo e []).calls
        = [CatalogCall.findClosest e.aircraft_position maxRange {}]
    ∧ (∃ v, (f_airportinfo e []).out = Except.ok v)
    ∧ (f_navinfo_pos e []).1 = e.aircraft_position
    ∧ f_navinfo e []
        = ⟨[CatalogCall.findByIdentAndFreq e.aircraft_position "" Double.zero
              PositionedType.INVALID],
            Except.ok (naRef.vec ((e.findByIdentAndFreq e.aircraft_position "" Double.zero
              PositionedType.INVALID).map (fun it => hashForNavRecord e it e.aircraft_position)))⟩
    ∧ f_magvar_pos e [] = Except.ok e.aircraft_position
    ∧ f_magvar e []
        = Except.ok (naNum (e.mul (e.sgGetMagVar e.aircraft_position e.getJD)
            e.SG_RADIANS_TO_DEGREES))
    ∧ f_tilePath_pos e [] = Except.ok e.aircraft_position
    ∧ f_tilePath e [] = Except.ok (stringToNasal (e.gen_base_path e.aircraft_position))
    ∧ f_courseAndDistance e []
        = Except.error (Fault.runtimeError "invalid arguments to courseAndDistance") := by
  refine ⟨rfl, ?_, ?_, rfl, rfl, rfl, rfl, rfl, rfl, rfl⟩
  · cases h : e.findClosest e.aircraft_position maxRange {} <;>
      simp [f_airportinfo, f_airportinfo_pos, f_airportinfo_finish, h]
  · cases h : e.findClosest e.aircraft_position maxRange {} <;>
      simp [f_airportinfo, f_airportinfo_pos, f_airportinfo_finish, h]

theorem points_four (e : Env) (a0 a1 a2 a3 : naRef) :
    f_courseAndDistance_points e [a0, a1, a2, a3]
      = (if naIsNum a0 && naIsNum a1 && naIsNum a2 && naIsNum a3 then
          Except.ok ({ lat := numOf a0, lon := numOf a1, elev := Double.zero },
                     { lat := numOf a2, lon := numOf a3, elev := Double.zero })
        else Except.error (Fault.runtimeError
          "invalid arguments to courseAndDistance - expected four numbers")) := by
  cases h0 : naIsNum a0 <;> cases h1 : naIsNum a1 <;> cases h2 : naIsNum a2 <;>
    cases h3 : naIsNum a3 <;>
    simp [f_courseAndDistance_points, arg, h0, h1, h2, h3, SGGeod.fromDeg]

/-- C4: a `courseAndDistance` call with exactly four arguments resolves, when
all four are numbers, to the origin (lat `args[0]`, lon `args[1]`) and the
destination (lat `args[2]`, lon `args[3]`), in which the aircraft position
does not occur, and raises the runtime error "expected four numbers" when one
of the four is not a number; the entry point then returns the course and
distance between these two points, or raises the same error. -/
theorem courseAndDistance_four_args (e : Env) (a0 a1 a2 a3 : naRef) :
    f_courseAndDistance_points e [a0, a1, a2, a3]
      = (if naIsNum a0 && naIsNum a1 && naIsNum a2 && naIsNum a3 then
          Except.ok ({ lat := numOf a0, lon := numOf a1, elev := Double.zero },
                     { lat := numOf a2, lon := numOf a3, elev := Double.zero })
        else Except.error (Fault.runtimeError
          "invalid arguments to courseAndDistance - expected four numbers"))
    ∧ f_courseAndDistance e [a0, a1, a2, a3]
      = (if naIsNum a0 && naIsNum a1 && naIsNum a2 && naIsNum a3 then
          Except.ok (naRef.vec
            [naNum (e.inverse { lat := numOf a0, lon := numOf a1, elev := Double.zero }
                      { lat := numOf a2, lon := numOf a3, elev := Double.zero }).1,
             naNum (e.mul
               (e.inverse { lat := numOf a0, lon := numOf a1, elev := Double.zero }
                      { lat := numOf a2, lon := numOf a3, elev := Double.zero }).2.2
               e.SG_METER_TO_NM)])
        else Except.error (Fault.runtimeError
          "invalid arguments to courseAndDistance - expected four numbers"))
    ∧ ∀ n0 n1 n2 n3 : Double,
        f_courseAndDistance_points e [naRef.num n0, naRef.num n1, naRef.num n2, naRef.num n3]
          = Except.ok ({ lat := n0, lon := n1, elev := Double.zero },
                       { lat := n2, lon := n3, elev := Double.zero }) := by
  have hp := points_four e a0 a1 a2 a3
  refine ⟨hp, ?_, fun _ _ _ _ => rfl⟩
  rw [f_courseAndDistance, hp]
  by_cases hc : (naIsNum a0 && naIsNum a1 && naIsNum a2 && naIsNum a3) = true
  · rw [if_pos hc, if_pos hc]
  · rw [if_neg hc, if_neg hc]

/-- The chain of `f_courseAndDistance_points` with every `geodFromHash` call
replaced by `geodOfHash`, by number of arguments. -/
theorem points_one (e : Env) (a0 : naRef) :
    f_courseAndDistance_points e [a0]
      = (match geodOfHash a0 with
        | Except.error f => Except.error f
        | Except.ok (some p) => Except.ok (e.aircraft_position, p)
        | Except.ok none =>
          Except.error (Fault.runtimeError "invalid arguments to courseAndDistance")) := by
  cases hg : geodOfHash a0 with
  | error f => simp [f_courseAndDistance_points, arg, geodFromHash_eq, hg]
  | ok o => cases o <;> simp [f_courseAndDistance_points, arg, geodFromHash_eq, hg]

theorem points_two (e : Env) (a0 a1 : naRef) :
    f_courseAndDistance_points e [a0, a1]
      = (if naIsNum a0 && naIsNum a1 then
          Except.ok (e.aircraft_position,
            { lat := numOf a0, lon := numOf a1, elev := Double.zero })
        else
          match geodOfHash a0 with
          | Except.error f => Except.error f
          | Except.ok none =>
            Except.error (Fault.runtimeError "invalid arguments to courseAndDistance")
          | Except.ok (some p) =>
            match geodOfHash a1 with
            | Except.error f => Except.error f
            | Except.ok none =>
              Except.error (Fault.runtimeError "invalid arguments to courseAndDistance")
            | Except.ok (some q) => Except.ok (p, q)) := by
  by_cases hn : (naIsNum a0 && naIsNum a1) = true
  · simp [f_courseAndDistance_points, arg, hn, SGGeod.fromDeg]
  · cases hg : geodOfHash a0 with
    | error f => simp [f_courseAndDistance_points, arg, geodFromHash_eq, hg, hn]
    | ok o =>
      cases o with
      | none => simp [f_courseAndDistance_points, arg, geodFromHash_eq, hg, hn]
      | some p =>
        cases hg1 : geodOfHash a1 with
        | error f => simp [f_courseAndDistance_points, arg, geodFromHash_eq, hg, hg1, hn]
        | ok o1 =>
          cases o1 <;> simp [f_courseAndDistance_points, arg, geodFromHash_eq, hg, hg1, hn]

theorem points_three (e : Env) (a0 a1 a2 : naRef) :
    f_courseAndDistance_points e [a0, a1, a2]
      = (match geodOfHash a0 with
        | Except.error f => Except.error f
        | Except.ok (some p) =>
          if naIsNum a1 && naIsNum a2 then
            Except.ok (p, { lat := numOf a1, lon := numOf a2, elev := Double.zero })
          else Except.error (Fault.runtimeError "invalid arguments to courseAndDistance")
        | Except.ok none =>
          if naIsNum a0 && naIsNum a1 then
            match geodOfHash a2 with
            | Except.error f => Except.error f
            | Except.ok (some q) =>
              Except.ok ({ lat := numOf a0, lon := numOf a1, elev := Double.zero }, q)
            | Except.ok none =>
              Except.error (Fault.runtimeError "invalid arguments to courseAndDistance")
          else Except.error (Fault.runtimeError "invalid arguments to courseAndDistance")) := by
  cases hg : geodOfHash a0 with
  | error f => simp [f_courseAndDistance_points, arg, geodFromHash_eq, hg]
  | ok o =>
    cases o with
    | some p =>
      have h0 := isNum_false_of_geodOfHash hg
      by_cases hn : (naIsNum a1 && naIsNum a2) = true
      · simp [f_courseAndDistance_points, arg, geodFromHash_eq, hg, hn, SGGeod.fromDeg]
      · simp [f_courseAndDistance_points, arg, geodFromHash_eq, hg, hn, h0]
    | none =>
      by_cases hn : (naIsNum a0 && naIsNum a1) = true
      · cases hg2 : geodOfHash a2 with
        | error f => simp [f_courseAndDistance_points, arg, geodFromHash_eq, hg, hg2, hn]
        | ok o2 =>
          cases o2 <;>
            simp [f_courseAndDistance_points, arg, geodFromHash_eq, hg, hg2, hn, SGGeod.fromDeg]
      · simp [f_courseAndDistance_points, arg, geodFromHash_eq, hg, hn]

theorem points_many (e : Env) (a0 a1 a2 a3 a4 : naRef) (rest : List naRef) :
    f_courseAndDistance_points e (a0 :: a1 :: a2 :: a3 :: a4 :: rest)
      = Except.error (Fault.runtimeError "invalid arguments to courseAndDistance") := by
  simp [f_courseAndDistance_points]

theorem points_none (e : Env) :
    f_courseAndDistance_points e []
      = Except.error (Fault.runtimeError "invalid arguments to courseAndDistance") := rfl

/-- The shapes of `courseAndDistance`, relative to what `geodFromHash` reads:
with P and Q records whose positions `geodFromHash` reads as p and q, and
numbers a and b, `courseAndDistance` resolves (P) to (aircraft position,
p), (a, b) to (aircraft position, (lat a, lon b)), (P, Q) to (p, q),
(P, a, b) to (p, (lat a, lon b)) and (a, b, P) to ((lat a, lon b), p); and
every call that resolves at all has one of these shapes or is four numbers,
with the origin and destination of that shape: no origin written by a test
that later failed is ever returned. -/
theorem courseAndDistance_shapes (e : Env) (P Q : naRef) (p q : SGGeod) (a b : Double)
    (hP : geodFromHash P SGGeod.default = Except.ok (true, p))
    (hQ : geodFromHash Q SGGeod.default = Except.ok (true, q)) :
    f_courseAndDistance_points e [P] = Except.ok (e.aircraft_position, p)
    ∧ f_courseAndDistance_points e [naRef.num a, naRef.num b]
        = Except.ok (e.aircraft_position, { lat := a, lon := b, elev := Double.zero })
    ∧ f_courseAndDistance_points e [P, Q] = Except.ok (p, q)
    ∧ f_courseAndDistance_points e [P, naRef.num a, naRef.num b]
        = Except.ok (p, { lat := a, lon := b, elev := Double.zero })
    ∧ f_courseAndDistance_points e [naRef.num a, naRef.num b, P]
        = Except.ok ({ lat := a, lon := b, elev := Double.zero }, p)
    ∧ ∀ (args : List naRef) (org dst : SGGeod),
        f_courseAndDistance_points e args = Except.ok (org, dst) →
          (∃ P1, args = [P1] ∧ org = e.aircraft_position
              ∧ geodFromHash P1 SGGeod.default = Except.ok (true, dst))
          ∨ (∃ a1 b1, args = [naRef.num a1, naRef.num b1] ∧ org = e.aircraft_position
              ∧ dst = { lat := a1, lon := b1, elev := Double.zero })
          ∨ (∃ P1 Q1, args = [P1, Q1]
              ∧ geodFromHash P1 SGGeod.default = Except.ok (true, org)
              ∧ geodFromHash Q1 SGGeod.default = Except.ok (true, dst))
          ∨ (∃ P1 a1 b1, args = [P1, naRef.num a1, naRef.num b1]
              ∧ geodFromHash P1 SGGeod.default = Except.ok (true, org)
              ∧ dst = { lat := a1, lon := b1, elev := Double.zero })
          ∨ (∃ a1 b1 P1, args = [naRef.num a1, naRef.num b1, P1]
              ∧ org = { lat := a1, lon := b1, elev := Double.zero }
              ∧ geodFromHash P1 SGGeod.default = Except.ok (true, dst))
          ∨ (∃ n0 n1 n2 n3, args = [naRef.num n0, naRef.num n1, naRef.num n2, naRef.num n3]
              ∧ org = { lat := n0, lon := n1, elev := Double.zero }
              ∧ dst = { lat := n2, lon := n3, elev := Double.zero }) := by
  have gP := geodOfHash_of_true hP
  have gQ := geodOfHash_of_true hQ
  have nP := isNum_false_of_geodOfHash gP
  have back : ∀ (x : naRef) (r : SGGeod), geodOfHash x = Except.ok (some r) →
      geodFromHash x SGGeod.default = Except.ok (true, r) := by
    intro x r hx
    rw [geodFromHash_eq, hx]
  refine ⟨?_, rfl, ?_, ?_, ?_, ?_⟩
  · rw [points_one, gP]
  · rw [points_two, gP, gQ]
    simp [nP]
  · rw [points_three, gP]
    simp [naIsNum, numOf]
  · rw [points_three]
    simp [geodOfHash_of_isNum, naIsNum, numOf, gP]
  · intro args org dst h
    rcases args with _ | ⟨a0, _ | ⟨a1, _ | ⟨a2, _ | ⟨a3, _ | ⟨a4, rest⟩⟩⟩⟩⟩
    · rw [points_none] at h
      simp at h
    · rw [points_one] at h
      cases hg : geodOfHash a0 with
      | error f => simp [hg] at h
      | ok o =>
        cases o with
        | none => simp [hg] at h
        | some r =>
          simp [hg] at h
          refine Or.inl ⟨a0, rfl, h.1.symm, ?_⟩
          rw [← h.2]
          exact back a0 r hg
    · rw [points_two] at h
      by_cases hn : (naIsNum a0 && naIsNum a1) = true
      · rw [if_pos hn] at h
        simp at hn
        obtain ⟨d0, rfl⟩ := (isNum_iff a0).1 hn.1
        obtain ⟨d1, rfl⟩ := (isNum_iff a1).1 hn.2
        simp [numOf] at h
        exact Or.inr (Or.inl ⟨d0, d1, rfl, h.1.symm, h.2.symm⟩)
      · rw [if_neg hn] at h
        cases hg : geodOfHash a0 with
        | error f => simp [hg] at h
        | ok o =>
          cases o with
          | none => simp [hg] at h
          | some r =>
            cases hg1 : geodOfHash a1 with
            | error f => simp [hg, hg1] at h
            | ok o1 =>
              cases o1 with
              | none => simp [hg, hg1] at h
              | some r1 =>
                simp [hg, hg1] at h
                refine Or.inr (Or.inr (Or.inl ⟨a0, a1, rfl, ?_, ?_⟩))
                · rw [← h.1]
                  exact back a0 r hg
                · rw [← h.2]
                  exact back a1 r1 hg1
    · rw [points_three] at h
      cases hg : geodOfHash a0 with
      | error f => simp [hg] at h
      | ok o =>
        cases o with
        | some r =>
          by_cases hn : (naIsNum a1 && naIsNum a2) = true
          · simp only [hg, if_pos hn] at h
            simp at hn
            obtain ⟨d1, rfl⟩ := (isNum_iff a1).1 hn.1
            obtain ⟨d2, rfl⟩ := (isNum_iff a2).1 hn.2
            simp [numOf] at h
            refine Or.inr (Or.inr (Or.inr (Or.inl ⟨a0, d1, d2, rfl, ?_, h.2.symm⟩)))
            rw [← h.1]
            exact back a0 r hg
          · simp [hg, hn] at h
        | none =>
          by_cases hn : (naIsNum a0 && naIsNum a1) = true
          · simp only [hg, if_pos hn] at h
            simp at hn
            obtain ⟨d0, rfl⟩ := (isNum_iff a0).1 hn.1
            obtain ⟨d1, rfl⟩ := (isNum_iff a1).1 hn.2
            cases hg2 : geodOfHash a2 with
            | error f => simp [hg2] at h
            | ok o2 =>
              cases o2 with
              | none => simp [hg2] at h
              | some r2 =>
                simp [hg2, numOf] at h
                refine Or.inr (Or.inr (Or.inr (Or.inr (Or.inl
                  ⟨d0, d1, a2, rfl, h.1.symm, ?_⟩))))
                rw [← h.2]
                exact back a2 r2 hg2
          · simp [hg, hn] at h
    · rw [(points_four e a0 a1 a2 a3)] at h
      by_cases hn : (naIsNum a0 && naIsNum a1 && naIsNum a2 && naIsNum a3) = true
      · rw [if_pos hn] at h
        simp at hn
        obtain ⟨d0, rfl⟩ := (isNum_iff a0).1 hn.1.1.1
        obtain ⟨d1, rfl⟩ := (isNum_iff a1).1 hn.1.1.2
        obtain ⟨d2, rfl⟩ := (isNum_iff a2).1 hn.1.2
        obtain ⟨d3, rfl⟩ := (isNum_iff a3).1 hn.2
        simp [numOf] at h
        exact Or.inr (Or.inr (Or.inr (Or.inr (Or.inr
          ⟨d0, d1, d2, d3, rfl, h.1.symm, h.2.symm⟩))))
      · rw [if_neg hn] at h
        simp at h
    · rw [points_many] at h
      simp at h

/-- The shapes of `courseAndDistance` in the test world, with the airport
record of `ksfo` as P and a waypoint record as Q. -/
theorem courseAndDistance_shapes_witness :
    f_courseAndDistance_points env0 [ksfoRecord]
        = Except.ok (env0.aircraft_position, ksfo.geod)
    ∧ f_courseAndDistance_points env0 [ksfoRecord, wayptRecord]
        = Except.ok (ksfo.geod, ⟨Double.ten, Double.twenty, Double.zero⟩)
    ∧ f_courseAndDistance_points env0 [ksfoRecord, naRef.num Double.one, naRef.num Double.hundred]
        = Except.ok (ksfo.geod, { lat := Double.one, lon := Double.hundred, elev := Double.zero })
    ∧ f_courseAndDistance_points env0 [naRef.num Double.one, naRef.num Double.hundred, ksfoRecord]
        = Except.ok ({ lat := Double.one, lon := Double.hundred, elev := Double.zero },
            ksfo.geod) :=
  have hP : geodFromHash ksfoRecord SGGeod.default = Except.ok (true, ksfo.geod) := by
    simp [ksfoRecord, hashForAirport, hashset, naHash_set, hashUpdate, naNewHash, geodFromHash,
      naIsHash, naHash_cget, List.lookup, ghostForPositioned, naIsNil, positionedGhost,
      FGPositioned.geod]
  have hQ : geodFromHash wayptRecord SGGeod.default
      = Except.ok (true, ⟨Double.ten, Double.twenty, Double.zero⟩) := by
    simp [wayptRecord, geodFromHash, naIsHash, naHash_cget, List.lookup, ghostForWaypt, naIsNil,
      wayptGhost, naNil]
  have h := courseAndDistance_shapes env0 ksfoRecord wayptRecord ksfo.geod
    ⟨Double.ten, Double.twenty, Double.zero⟩ Double.one Double.hundred hP hQ
  ⟨h.1, h.2.2.1, h.2.2.2.1, h.2.2.2.2.1⟩

/-! ## Lemmas on argument counts -/

theorem airportinfo_pos_length (e : Env) (args : List naRef) :
    args.length ≤ (f_airportinfo_pos e args).2.length + 2 := by
  unfold f_airportinfo_pos
  split
  · simp only [List.length_drop]
    omega
  · simp

theorem navinfo_pos_length (e : Env) (args : List naRef) :
    args.length ≤ (f_navinfo_pos e args).2.length + 2 := by
  unfold f_navinfo_pos
  split
  · simp only [List.length_drop]
    omega
  · simp

theorem navinfo_type_rest (args : List naRef) :
    (f_navinfo_type args).2.2
      = if args.length > 0 && naIsString (arg args 0) then args.drop 1 else args := by
  unfold f_navinfo_type
  simp only []
  split_ifs <;> rfl

theorem navinfo_type_length (args : List naRef) :
    args.length ≤ (f_navinfo_type args).2.2.length + 1 := by
  rw [navinfo_type_rest]
  split
  · simp only [List.length_drop]
    omega
  · omega

theorem navinfo_id_length (id : String) (args : List naRef) (id1 : String)
    (rest : List naRef) (h : f_navinfo_id id args = Except.ok (id1, rest)) :
    args.length ≤ rest.length + 1 := by
  unfold f_navinfo_id at h
  split at h
  · split at h
    · simp at h
    · simp only [Except.ok.injEq, Prod.mk.injEq] at h
      rw [← h.2]
      simp only [List.length_drop]
      omega
  · simp only [Except.ok.injEq, Prod.mk.injEq] at h
    rw [h.2]
    omega

theorem airportinfo_many (e : Env) (args : List naRef) (h : 3 < args.length) :
    f_airportinfo e args
      = ⟨[], Except.error (Fault.runtimeError "airportinfo() with invalid function arguments")⟩ := by
  have hl := airportinfo_pos_length e args
  unfold f_airportinfo
  rcases hpr : f_airportinfo_pos e args with ⟨pos, rest⟩
  rw [hpr] at hl
  simp only at hl ⊢
  have h0 : (rest.length == 0) = false := by
    simp
    intro h0
    simp [h0] at hl
    omega
  have h1 : (rest.length == 1) = false := by
    simp
    omega
  simp [h0, h1]

theorem navinfo_many (e : Env) (args : List naRef) (h : 4 < args.length) :
    f_navinfo e args
        = ⟨[], Except.error (Fault.runtimeError "navinfo() called with navaid id")⟩
    ∨ f_navinfo e args
        = ⟨[], Except.error (Fault.runtimeError "navinfo() called with too many arguments")⟩ := by
  have hl := navinfo_pos_length e args
  unfold f_navinfo
  rcases hpr : f_navinfo_pos e args with ⟨pos, rest⟩
  rw [hpr] at hl
  simp only at hl ⊢
  have hl2 := navinfo_type_length rest
  rcases htr : f_navinfo_type rest with ⟨type, id, rest2⟩
  rw [htr] at hl2
  simp only at hl2 ⊢
  cases hid : f_navinfo_id id rest2 with
  | error f =>
    left
    unfold f_navinfo_id at hid
    split at hid
    · split at hid
      · simp at hid
        simp [hid]
      · simp at hid
    · simp at hid
  | ok pr3 =>
    obtain ⟨id1, rest3⟩ := pr3
    have hl3 := navinfo_id_length id rest2 id1 rest3 hid
    right
    have : 0 < rest3.length := by omega
    simp [this]

theorem magvar_pos_many (e : Env) (args : List naRef) (h : 2 < args.length) :
    f_magvar_pos e args = Except.error (Fault.runtimeError
      "magvar() expects no arguments, a positioned hash or lat,lon pair") := by
  have h0 : (args.length == 0) = false := by
    simp only [beq_eq_false_iff_ne, ne_eq]
    omega
  have h1 : (args.length == 1) = false := by simp; omega
  have h2 : (args.length == 2) = false := by simp; omega
  simp [f_magvar_pos, h0, h1, h2]

theorem tilePath_pos_many (e : Env) (args : List naRef) (h : 2 < args.length) :
    f_tilePath_pos e args = Except.error (Fault.runtimeError
      "bucketPath() expects no arguments, a positioned hash or lat,lon pair") := by
  have h0 : (args.length == 0) = false := by
    simp only [beq_eq_false_iff_ne, ne_eq]
    omega
  have h1 : (args.length == 1) = false := by simp; omega
  have h2 : (args.length == 2) = false := by simp; omega
  simp [f_tilePath_pos, h0, h1, h2]

theorem points_bad_count (e : Env) (args : List naRef)
    (h : args.length = 0 ∨ 4 < args.length) :
    f_courseAndDistance_points e args
      = Except.error (Fault.runtimeError "invalid arguments to courseAndDistance") := by
  rcases args with _ | ⟨a0, _ | ⟨a1, _ | ⟨a2, _ | ⟨a3, _ | ⟨a4, rest⟩⟩⟩⟩⟩
  · exact points_none e
  all_goals first
    | exact points_many e _ _ _ _ _ _
    | (simp at h)

/-- C6: a call with a number of arguments outside the accepted set raises a
runtime error and makes no catalog query: `airportinfo` with more than 3
arguments, `navinfo` with more than 4, `courseAndDistance` with none or more
than 4, `magvar` and `bucketPath` with more than 2, `carttogeod` and
`geodtocart` with a number other than 3. -/
theorem bad_argument_count_raises (e : Env) (args : List naRef) :
    (3 < args.length →
      f_airportinfo e args
        = ⟨[], Except.error (Fault.runtimeError "airportinfo() with invalid function arguments")⟩)
    ∧ (4 < args.length →
      f_navinfo e args
          = ⟨[], Except.error (Fault.runtimeError "navinfo() called with navaid id")⟩
      ∨ f_navinfo e args
          = ⟨[], Except.error (Fault.runtimeError "navinfo() called with too many arguments")⟩)
    ∧ (args.length = 0 ∨ 4 < args.length →
      f_courseAndDistance e args
        = Except.error (Fault.runtimeError "invalid arguments to courseAndDistance"))
    ∧ (2 < args.length →
      f_magvar e args = Except.error (Fault.runtimeError
        "magvar() expects no arguments, a positioned hash or lat,lon pair"))
    ∧ (2 < args.length →
      f_tilePath e args = Except.error (Fault.runtimeError
        "bucketPath() expects no arguments, a positioned hash or lat,lon pair"))
    ∧ (args.length ≠ 3 →
      f_carttogeod e args = Except.error (Fault.runtimeError "carttogeod() expects 3 arguments"))
    ∧ (args.length ≠ 3 →
      f_geodtocart e args
        = Except.error (Fault.runtimeError "geodtocart() expects 3 arguments")) := by
  refine ⟨airportinfo_many e args, navinfo_many e args, ?_, ?_, ?_, ?_, ?_⟩
  · intro h
    rw [f_courseAndDistance, points_bad_count e args h]
  · intro h
    rw [f_magvar, magvar_pos_many e args h]
  · intro h
    rw [f_tilePath, tilePath_pos_many e args h]
  · intro h
    simp [f_carttogeod, h]
  · intro h
    simp [f_geodtocart, h]

/-- C6 at concrete calls of the test world: four arguments to `airportinfo`,
five to `navinfo`, none to `courseAndDistance`, three to `magvar` and
`bucketPath`, two to `carttogeod` and `geodtocart`. -/
theorem bad_argument_count_raises_witness :
    f_airportinfo env0 [naRef.nil, naRef.nil, naRef.nil, naRef.nil]
        = ⟨[], Except.error (Fault.runtimeError "airportinfo() with invalid function arguments")⟩
    ∧ (f_navinfo env0 [naRef.num Double.ten, naRef.num Double.twenty, naRef.str "vor",
          naRef.str "HAM", naRef.str "X"]
          = ⟨[], Except.error (Fault.runtimeError "navinfo() called with navaid id")⟩
      ∨ f_navinfo env0 [naRef.num Double.ten, naRef.num Double.twenty, naRef.str "vor",
          naRef.str "HAM", naRef.str "X"]
          = ⟨[], Except.error (Fault.runtimeError "navinfo() called with too many arguments")⟩)
    ∧ f_courseAndDistance env0 []
        = Except.error (Fault.runtimeError "invalid arguments to courseAndDistance")
    ∧ f_magvar env0 [naRef.nil, naRef.nil, naRef.nil] = Except.error (Fault.runtimeError
        "magvar() expects no arguments, a positioned hash or lat,lon pair")
    ∧ f_tilePath env0 [naRef.nil, naRef.nil, naRef.nil] = Except.error (Fault.runtimeError
        "bucketPath() expects no arguments, a positioned hash or lat,lon pair")
    ∧ f_carttogeod env0 [naRef.nil, naRef.nil]
        = Except.error (Fault.runtimeError "carttogeod() expects 3 arguments")
    ∧ f_geodtocart env0 [naRef.nil, naRef.nil]
        = Except.error (Fault.runtimeError "geodtocart() expects 3 arguments") :=
  ⟨(bad_argument_count_raises env0 [naRef.nil, naRef.nil, naRef.nil, naRef.nil]).1 (by decide),
   (bad_argument_count_raises env0 [naRef.num Double.ten, naRef.num Double.twenty,
      naRef.str "vor", naRef.str "HAM", naRef.str "X"]).2.1 (by decide),
   (bad_argument_count_raises env0 []).2.2.1 (Or.inl rfl),
   (bad_argument_count_raises env0 [naRef.nil, naRef.nil, naRef.nil]).2.2.2.1 (by decide),
   (bad_argument_count_raises env0 [naRef.nil, naRef.nil, naRef.nil]).2.2.2.2.1 (by decide),
   (bad_argument_count_raises env0 [naRef.nil, naRef.nil]).2.2.2.2.2.1 (by decide),
   (bad_argument_count_raises env0 [naRef.nil, naRef.nil]).2.2.2.2.2.2 (by decide)⟩

/-- C7: for a string s that is none of "airport", "seaport", "heliport" and
that the catalog does not know as an identifier, `airportinfo(s)` and
`airportinfo(lat, lon, s)` return nil, raise nothing, and make the one catalog
call `findByIdent(s)`: no search for the closest airport follows. -/
theorem airportinfo_unknown_ident_nil (e : Env) (s : String) (a b : Double)
    (h1 : s ≠ "airport") (h2 : s ≠ "seaport") (h3 : s ≠ "heliport")
    (hf : e.findByIdent s = none) :
    f_airportinfo e [naRef.str s] = ⟨[CatalogCall.findByIdent s], Except.ok naNil⟩
    ∧ f_airportinfo e [naRef.num a, naRef.num b, naRef.str s]
        = ⟨[CatalogCall.findByIdent s], Except.ok naNil⟩ := by
  constructor <;>
    simp [f_airportinfo, f_airportinfo_pos, arg, naIsNum, naIsString, naStr_data, h1, h2, h3, hf]

/-- C7 in the test world, whose catalog does not know "XXXX". -/
theorem airportinfo_unknown_ident_nil_witness :
    f_airportinfo env0 [naRef.str "XXXX"]
        = ⟨[CatalogCall.findByIdent "XXXX"], Except.ok naNil⟩
    ∧ f_airportinfo env0 [naRef.num Double.ten, naRef.num Double.twenty, naRef.str "XXXX"]
        = ⟨[CatalogCall.findByIdent "XXXX"], Except.ok naNil⟩ :=
  airportinfo_unknown_ident_nil env0 "XXXX" Double.ten Double.twenty
    (by decide) (by decide) (by decide) (by decide)

/-- C8: for a string s that is none of the three type keywords and that the
catalog knows as the identifier of airport A, `airportinfo(s)` and
`airportinfo(lat, lon, s)` return the record built from A, whose `id` field is
A's identifier; the one catalog call is `findByIdent(s)`, so no search by
distance is made, and moving the aircraft does not change the reply. -/
theorem airportinfo_known_ident (e : Env) (s : String) (A : FGAirport) (a b : Double)
    (h1 : s ≠ "airport") (h2 : s ≠ "seaport") (h3 : s ≠ "heliport")
    (hf : e.findByIdent s = some A) :
    f_airportinfo e [naRef.str s]
        = ⟨[CatalogCall.findByIdent s], Except.ok (hashForAirport e A)⟩
    ∧ f_airportinfo e [naRef.num a, naRef.num b, naRef.str s]
        = ⟨[CatalogCall.findByIdent s], Except.ok (hashForAirport e A)⟩
    ∧ naHash_cget (hashForAirport e A) "id" = naRef.str A.ident
    ∧ ∀ pos : SGGeod,
        f_airportinfo { e with aircraft_position := pos } [naRef.str s]
          = f_airportinfo e [naRef.str s] := by
  have key : ∀ e1 : Env, e1.findByIdent s = some A →
      f_airportinfo e1 [naRef.str s]
        = ⟨[CatalogCall.findByIdent s], Except.ok (hashForAirport e1 A)⟩ := by
    intro e1 hf1
    simp [f_airportinfo, f_airportinfo_pos, f_airportinfo_finish, arg, naIsString,
      naStr_data, h1, h2, h3, hf1]
  refine ⟨key e hf, ?_, ?_, ?_⟩
  · simp [f_airportinfo, f_airportinfo_pos, f_airportinfo_finish, arg, naIsNum, naIsString,
      naStr_data, h1, h2, h3, hf]
  · simp [hashForAirport, hashset, naHash_set, hashUpdate, naNewHash, naHash_cget,
      stringToNasal, List.lookup]
  · intro pos
    rw [key e hf, key { e with aircraft_position := pos } hf]
    rfl

/-- C8 in the test world, whose catalog knows "KSFO". -/
theorem airportinfo_known_ident_witness :
    f_airportinfo env0 [naRef.str "KSFO"]
        = ⟨[CatalogCall.findByIdent "KSFO"], Except.ok (hashForAirport env0 ksfo)⟩
    ∧ naHash_cget (hashForAirport env0 ksfo) "id" = naRef.str "KSFO" :=
  ⟨(airportinfo_known_ident env0 "KSFO" ksfo Double.ten Double.twenty
      (by decide) (by decide) (by decide) (by decide)).1,
   (airportinfo_known_ident env0 "KSFO" ksfo Double.ten Double.twenty
      (by decide) (by decide) (by decide) (by decide)).2.2.1⟩

/-- C9: `airportinfo()` and `airportinfo("airport")` give the same reply, and
so do `airportinfo(lat, lon)` and `airportinfo(lat, lon, "airport")`: one call
`findClosest` from the aircraft position (or from (lat, lon)) with range
10000.0 and a filter whose `minType()` and `maxType()` are `AIRPORT`, and the
record of the airport found or nil; "seaport" and "heliport" make the same
call with the filter type `SEAPORT` and `HELIPORT`. -/
theorem airportinfo_default_is_airport (e : Env) (a b : Double) :
    f_airportinfo e [] = f_airportinfo e [naRef.str "airport"]
    ∧ f_airportinfo e []
        = f_airportinfo_finish e e.aircraft_position { type := PositionedType.AIRPORT } [] none
    ∧ (f_airportinfo e []).calls
        = [CatalogCall.findClosest e.aircraft_position Double.tenThousand
            { type := PositionedType.AIRPORT }]
    ∧ f_airportinfo e [naRef.num a, naRef.num b]
        = f_airportinfo e [naRef.num a, naRef.num b, naRef.str "airport"]
    ∧ (f_airportinfo e [naRef.num a, naRef.num b]).calls
        = [CatalogCall.findClosest { lat := a, lon := b, elev := Double.zero }
            Double.tenThousand { type := PositionedType.AIRPORT }]
    ∧ (f_airportinfo e [naRef.str "seaport"]).calls
        = [CatalogCall.findClosest e.aircraft_position Double.tenThousand
            { type := PositionedType.SEAPORT }]
    ∧ (f_airportinfo e [naRef.num a, naRef.num b, naRef.str "seaport"]).calls
        = [CatalogCall.findClosest { lat := a, lon := b, elev := Double.zero }
            Double.tenThousand { type := PositionedType.SEAPORT }]
    ∧ (f_airportinfo e [naRef.str "heliport"]).calls
        = [CatalogCall.findClosest e.aircraft_position Double.tenThousand
            { type := PositionedType.HELIPORT }]
    ∧ (f_airportinfo e [naRef.num a, naRef.num b, naRef.str "heliport"]).calls
        = [CatalogCall.findClosest { lat := a, lon := b, elev := Double.zero }
            Double.tenThousand { type := PositionedType.HELIPORT }]
    ∧ (∀ t : PositionedType, (AirportInfoFilter.mk t).minType = t
        ∧ (AirportInfoFilter.mk t).maxType = t) := by
  have fin : ∀ (pos : SGGeod) (f : AirportInfoFilter),
      (f_airportinfo_finish e pos f [] none).calls
        = [CatalogCall.findClosest pos Double.tenThousand f] := by
    intro pos f
    unfold f_airportinfo_finish
    cases e.findClosest pos maxRange f <;> simp [maxRange]
  have e0 : f_airportinfo e []
      = f_airportinfo_finish e e.aircraft_position { type := PositionedType.AIRPORT } [] none :=
    rfl
  have e1 : f_airportinfo e [naRef.num a, naRef.num b]
      = f_airportinfo_finish e { lat := a, lon := b, elev := Double.zero }
          { type := PositionedType.AIRPORT } [] none := rfl
  have e2 : f_airportinfo e [naRef.str "seaport"]
      = f_airportinfo_finish e e.aircraft_position { type := PositionedType.SEAPORT } [] none :=
    rfl
  have e3 : f_airportinfo e [naRef.num a, naRef.num b, naRef.str "seaport"]
      = f_airportinfo_finish e { lat := a, lon := b, elev := Double.zero }
          { type := PositionedType.SEAPORT } [] none := rfl
  have e4 : f_airportinfo e [naRef.str "heliport"]
      = f_airportinfo_finish e e.aircraft_position { type := PositionedType.HELIPORT } [] none :=
    rfl
  have e5 : f_airportinfo e [naRef.num a, naRef.num b, naRef.str "heliport"]
      = f_airportinfo_finish e { lat := a, lon := b, elev := Double.zero }
          { type := PositionedType.HELIPORT } [] none := rfl
  refine ⟨rfl, e0, ?_, rfl, ?_, ?_, ?_, ?_, ?_, fun t => ⟨rfl, rfl⟩⟩
  · rw [e0, fin]
  · rw [e1, fin]
  · rw [e2, fin]
  · rw [e3, fin]
  · rw [e4, fin]
  · rw [e5, fin]

/-- C10: a call `navinfo([lat, lon,] [type,] [id])`, with `type` one of the
seven keywords when given and `id` not a keyword when no type is given, is
accepted and makes the one catalog call `findByIdentAndFreq(origin, id, 0.0,
type)`: the origin is (lat, lon) when the pair is given and the aircraft
position otherwise, the type is the keyword's type and `INVALID` (no
restriction) when no keyword is given, the identifier is `id` and the empty
string when none is given; the reply is the vector of the records of the
navaids found. -/
theorem navinfo_query (e : Env) (latlon : Option (Double × Double))
    (keyword id : Option String)
    (hk : ∀ k, keyword = some k → (navinfoKeywordType k).isSome = true)
    (hi : keyword = none → ∀ s, id = some s → navinfoKeywordType s = none) :
    f_navinfo e (navinfoCall latlon keyword id)
      = ⟨[CatalogCall.findByIdentAndFreq
            (match latlon with
              | some (lat, lon) => { lat := lat, lon := lon, elev := Double.zero }
              | none => e.aircraft_position)
            (id.getD "") Double.zero
            ((keyword.bind navinfoKeywordType).getD PositionedType.INVALID)],
          Except.ok (naRef.vec
            ((e.findByIdentAndFreq
              (match latlon with
                | some (lat, lon) => { lat := lat, lon := lon, elev := Double.zero }
                | none => e.aircraft_position)
              (id.getD "") Double.zero
              ((keyword.bind navinfoKeywordType).getD PositionedType.INVALID)).map
            (fun it => hashForNavRecord e it
              (match latlon with
                | some (lat, lon) => { lat := lat, lon := lon, elev := Double.zero }
                | none => e.aircraft_position))))⟩
    ∧ f_navinfo e [naRef.str "any"] = f_navinfo e []
    ∧ (f_navinfo e [naRef.str "vor", naRef.str "HAM"]).calls
        = [CatalogCall.findByIdentAndFreq e.aircraft_position "HAM" Double.zero
            PositionedType.VOR] := by
  refine ⟨?_, rfl, rfl⟩
  have keywords : ∀ k, (navinfoKeywordType k).isSome = true →
      k = "any" ∨ k = "fix" ∨ k = "vor" ∨ k = "ndb" ∨ k = "ils" ∨ k = "dme" ∨ k = "tacan" := by
    intro k h
    by_cases h1 : k = "any"
    · exact Or.inl h1
    by_cases h2 : k = "fix"
    · exact Or.inr (Or.inl h2)
    by_cases h3 : k = "vor"
    · exact Or.inr (Or.inr (Or.inl h3))
    by_cases h4 : k = "ndb"
    · exact Or.inr (Or.inr (Or.inr (Or.inl h4)))
    by_cases h5 : k = "ils"
    · exact Or.inr (Or.inr (Or.inr (Or.inr (Or.inl h5))))
    by_cases h6 : k = "dme"
    · exact Or.inr (Or.inr (Or.inr (Or.inr (Or.inr (Or.inl h6)))))
    by_cases h7 : k = "tacan"
    · exact Or.inr (Or.inr (Or.inr (Or.inr (Or.inr (Or.inr h7)))))
    simp [navinfoKeywordType, h1, h2, h3, h4, h5, h6, h7] at h
  have others : ∀ s, navinfoKeywordType s = none →
      s ≠ "any" ∧ s ≠ "fix" ∧ s ≠ "vor" ∧ s ≠ "ndb" ∧ s ≠ "ils" ∧ s ≠ "dme" ∧ s ≠ "tacan" := by
    intro s h
    refine ⟨?_, ?_, ?_, ?_, ?_, ?_, ?_⟩ <;>
    · rintro rfl
      simp [navinfoKeywordType] at h
  rcases latlon with _ | ⟨lat, lon⟩ <;> rcases keyword with _ | k <;> rcases id with _ | s
  · simp [f_navinfo, f_navinfo_pos, f_navinfo_type, f_navinfo_id, navinfoCall]
  · obtain ⟨o1, o2, o3, o4, o5, o6, o7⟩ := others s (hi rfl s rfl)
    simp [f_navinfo, f_navinfo_pos, f_navinfo_type, f_navinfo_id, navinfoCall, arg,
      naIsNum, naIsString, naStr_data, o1, o2, o3, o4, o5, o6, o7]
  · rcases keywords k (hk k rfl) with rfl | rfl | rfl | rfl | rfl | rfl | rfl <;>
      simp [f_navinfo, f_navinfo_pos, f_navinfo_type, f_navinfo_id, navinfoCall, arg,
        naIsNum, naIsString, naStr_data, navinfoKeywordType]
  · rcases keywords k (hk k rfl) with rfl | rfl | rfl | rfl | rfl | rfl | rfl <;>
      simp [f_navinfo, f_navinfo_pos, f_navinfo_type, f_navinfo_id, navinfoCall, arg,
        naIsNum, naIsString, naStr_data, navinfoKeywordType]
  · simp [f_navinfo, f_navinfo_pos, f_navinfo_type, f_navinfo_id, navinfoCall, arg,
      naIsNum, naIsString, numOf, SGGeod.fromDeg]
  · obtain ⟨o1, o2, o3, o4, o5, o6, o7⟩ := others s (hi rfl s rfl)
    simp [f_navinfo, f_navinfo_pos, f_navinfo_type, f_navinfo_id, navinfoCall, arg,
      naIsNum, naIsString, naStr_data, numOf, SGGeod.fromDeg, o1, o2, o3, o4, o5, o6, o7]
  · rcases keywords k (hk k rfl) with rfl | rfl | rfl | rfl | rfl | rfl | rfl <;>
      simp [f_navinfo, f_navinfo_pos, f_navinfo_type, f_navinfo_id, navinfoCall, arg,
        naIsNum, naIsString, naStr_data, numOf, SGGeod.fromDeg, navinfoKeywordType]
  · rcases keywords k (hk k rfl) with rfl | rfl | rfl | rfl | rfl | rfl | rfl <;>
      simp [f_navinfo, f_navinfo_pos, f_navinfo_type, f_navinfo_id, navinfoCall, arg,
        naIsNum, naIsString, naStr_data, numOf, SGGeod.fromDeg, navinfoKeywordType]

/-- C10 in the test world: `navinfo(10.0, 20.0, "vor", "HAM")` queries the
VORs named "HAM" from latitude 10.0, longitude 20.0 and returns the record of
the one the catalog holds. -/
theorem navinfo_query_witness :
    f_navinfo env0 [naRef.num Double.ten, naRef.num Double.twenty, naRef.str "vor",
        naRef.str "HAM"]
      = ⟨[CatalogCall.findByIdentAndFreq
            { lat := Double.ten, lon := Double.twenty, elev := Double.zero }
            "HAM" Double.zero PositionedType.VOR],
          Except.ok (naRef.vec [hashForNavRecord env0 hamVor
            { lat := Double.ten, lon := Double.twenty, elev := Double.zero }])⟩ :=
  (navinfo_query env0 (some (Double.ten, Double.twenty)) (some "vor") (some "HAM")
    (by
      intro k hk
      cases hk
      decide)
    (by
      intro hn
      cases hn)).1

/-- C11 (as stated, refuted): the empty string is none of the seven keywords,
and in the test world `navinfo("", "HAM")` raises nothing: it queries the
navaids named "HAM" and returns the record of the one found. -/
theorem navinfo_empty_then_ident_accepted :
    navinfoKeywordType "" = none
    ∧ f_navinfo env0 [naRef.str "", naRef.str "HAM"]
      = ⟨[CatalogCall.findByIdentAndFreq env0.aircraft_position "HAM" Double.zero
            PositionedType.INVALID],
          Except.ok (naRef.vec [hashForNavRecord env0 hamVor env0.aircraft_position])⟩ :=
  ⟨by decide, rfl⟩

/-- C11 (amended): when the arguments, after a leading pair of numbers if
there is one, start with two strings of which the first is none of the seven
keywords and is not empty, `navinfo` raises the runtime error "navinfo()
called with navaid id" and makes no catalog call; an empty first string
counts as no identifier, and the second string is then the identifier of the
query. -/
theorem navinfo_two_identifiers_raise (e : Env) (s1 s2 : String) (a b : Double)
    (rest : List naRef) (hk : navinfoKeywordType s1 = none) (hne : s1 ≠ "") :
    f_navinfo e (naRef.str s1 :: naRef.str s2 :: rest)
        = ⟨[], Except.error (Fault.runtimeError "navinfo() called with navaid id")⟩
    ∧ f_navinfo e (naRef.num a :: naRef.num b :: naRef.str s1 :: naRef.str s2 :: rest)
        = ⟨[], Except.error (Fault.runtimeError "navinfo() called with navaid id")⟩
    ∧ (f_navinfo e [naRef.str "", naRef.str s2]).calls
        = [CatalogCall.findByIdentAndFreq e.aircraft_position s2 Double.zero
            PositionedType.INVALID] := by
  have others : s1 ≠ "any" ∧ s1 ≠ "fix" ∧ s1 ≠ "vor" ∧ s1 ≠ "ndb" ∧ s1 ≠ "ils"
      ∧ s1 ≠ "dme" ∧ s1 ≠ "tacan" := by
    refine ⟨?_, ?_, ?_, ?_, ?_, ?_, ?_⟩ <;>
    · rintro rfl
      simp [navinfoKeywordType] at hk
  obtain ⟨o1, o2, o3, o4, o5, o6, o7⟩ := others
  refine ⟨?_, ?_, ?_⟩
  · simp [f_navinfo, f_navinfo_pos, f_navinfo_type, f_navinfo_id, arg, naIsNum, naIsString,
      naStr_data, o1, o2, o3, o4, o5, o6, o7, hne]
  · simp [f_navinfo, f_navinfo_pos, f_navinfo_type, f_navinfo_id, arg, naIsNum, naIsString,
      naStr_data, o1, o2, o3, o4, o5, o6, o7, hne]
  · simp [f_navinfo, f_navinfo_pos, f_navinfo_type, f_navinfo_id, arg, naIsNum, naIsString,
      naStr_data]

/-- C11 (amended) in the test world: `navinfo("HAM", "X")` and
`navinfo(10.0, 20.0, "HAM", "X")` raise the runtime error. -/
theorem navinfo_two_identifiers_raise_witness :
    f_navinfo env0 [naRef.str "HAM", naRef.str "X"]
        = ⟨[], Except.error (Fault.runtimeError "navinfo() called with navaid id")⟩
    ∧ f_navinfo env0 [naRef.num Double.ten, naRef.num Double.twenty, naRef.str "HAM",
          naRef.str "X"]
        = ⟨[], Except.error (Fault.runtimeError "navinfo() called with navaid id")⟩ :=
  ⟨(navinfo_two_identifiers_raise env0 "HAM" "X" Double.ten Double.twenty []
      (by decide) (by decide)).1,
   (navinfo_two_identifiers_raise env0 "HAM" "X" Double.ten Double.twenty []
      (by decide) (by decide)).2.1⟩

/-! ## Lemmas on navaid records -/

theorem navRecord_fields (e : Env) (n : FGNavRecord) (rel : SGGeod) :
    naHash_cget (hashForNavRecord e n rel) "_positioned"
        = naRef.ghost (Ghost.positioned (FGPositioned.nav n))
    ∧ naHash_cget (hashForNavRecord e n rel) "distance"
        = naNum (e.mul (e.distanceNm rel n.geod) e.SG_NM_TO_METER)
    ∧ naHash_cget (hashForNavRecord e n rel) "bearing"
        = naNum (e.courseDeg rel n.geod) := by
  refine ⟨?_, ?_, ?_⟩ <;>
    simp [hashForNavRecord, naHash_set, hashUpdate, naNewHash, naHash_cget, List.lookup,
      ghostForPositioned]

theorem navinfo_accepted (e : Env) (args : List naRef) (v : naRef)
    (h : (f_navinfo e args).out = Except.ok v) :
    ∃ (id : String) (type : PositionedType),
      f_navinfo e args
        = ⟨[CatalogCall.findByIdentAndFreq (f_navinfo_pos e args).1 id Double.zero type],
            Except.ok (naRef.vec
              ((e.findByIdentAndFreq (f_navinfo_pos e args).1 id Double.zero type).map
                (fun n => hashForNavRecord e n (f_navinfo_pos e args).1)))⟩ := by
  unfold f_navinfo at h ⊢
  rcases hpr : f_navinfo_pos e args with ⟨pos, rest⟩
  rw [hpr] at h
  simp only at h ⊢
  rcases htr : f_navinfo_type rest with ⟨type, id, rest2⟩
  rw [htr] at h
  simp only at h ⊢
  cases hid : f_navinfo_id id rest2 with
  | error f =>
    rw [hid] at h
    simp at h
  | ok pr3 =>
    obtain ⟨id1, rest3⟩ := pr3
    rw [hid] at h
    simp only at h ⊢
    by_cases hl : rest3.length > 0
    · rw [if_pos hl] at h
      simp at h
    · rw [if_neg hl]
      exact ⟨id1, type, rfl⟩

/-- C12: an accepted `navinfo` call makes one catalog call
`findByIdentAndFreq(origin, id, 0.0, type)` from its resolved origin and
returns the vector of the records of the entities the catalog returned, one
for each, in the catalog's order; each record holds the ghost of its entity
and the distance and bearing of the entity from that same origin; an empty
catalog result gives the empty vector; and when the catalog's list ascends in
distance from the origin (for an order on doubles that the conversion to
metres preserves) the `distance` fields of the records ascend. -/
theorem navinfo_records (e : Env) (args : List naRef) (v : naRef)
    (h : (f_navinfo e args).out = Except.ok v) :
    ∃ (id : String) (type : PositionedType),
      (f_navinfo e args).calls
        = [CatalogCall.findByIdentAndFreq (f_navinfo_pos e args).1 id Double.zero type]
      ∧ v = naRef.vec
          ((e.findByIdentAndFreq (f_navinfo_pos e args).1 id Double.zero type).map
            (fun n => hashForNavRecord e n (f_navinfo_pos e args).1))
      ∧ (e.findByIdentAndFreq (f_navinfo_pos e args).1 id Double.zero type = [] →
          v = naRef.vec [])
      ∧ (∀ n : FGNavRecord,
          naHash_cget (hashForNavRecord e n (f_navinfo_pos e args).1) "_positioned"
              = naRef.ghost (Ghost.positioned (FGPositioned.nav n))
          ∧ naHash_cget (hashForNavRecord e n (f_navinfo_pos e args).1) "distance"
              = naNum (e.mul (e.distanceNm (f_navinfo_pos e args).1 n.geod) e.SG_NM_TO_METER)
          ∧ naHash_cget (hashForNavRecord e n (f_navinfo_pos e args).1) "bearing"
              = naNum (e.courseDeg (f_navinfo_pos e args).1 n.geod))
      ∧ (∀ le : Double → Double → Prop,
          (∀ x y, le x y → le (e.mul x e.SG_NM_TO_METER) (e.mul y e.SG_NM_TO_METER)) →
          List.Pairwise
            (fun m n => le (e.distanceNm (f_navinfo_pos e args).1 m.geod)
              (e.distanceNm (f_navinfo_pos e args).1 n.geod))
            (e.findByIdentAndFreq (f_navinfo_pos e args).1 id Double.zero type) →
          List.Pairwise
            (fun r s => le (numOf (naHash_cget r "distance")) (numOf (naHash_cget s "distance")))
            ((e.findByIdentAndFreq (f_navinfo_pos e args).1 id Double.zero type).map
              (fun n => hashForNavRecord e n (f_navinfo_pos e args).1))) := by
  obtain ⟨id, type, hrep⟩ := navinfo_accepted e args v h
  refine ⟨id, type, ?_, ?_, ?_, ?_, ?_⟩
  · rw [hrep]
  · rw [hrep] at h
    simp only [Except.ok.injEq] at h
    exact h.symm
  · intro hempty
    rw [hrep] at h
    simp only [Except.ok.injEq] at h
    rw [← h, hempty]
    rfl
  · intro n
    exact navRecord_fields e n _
  · intro le hmono hsorted
    refine List.Pairwise.map _ ?_ hsorted
    intro m n hmn
    rw [(navRecord_fields e m _).2.1, (navRecord_fields e n _).2.1]
    exact hmono _ _ hmn

/-- C12 in the test world: `navinfo("vor", "HAM")` is accepted and returns
the record of the one navaid the catalog holds. -/
theorem navinfo_records_witness :
    ∃ (id : String) (type : PositionedType),
      (f_navinfo env0 [naRef.str "vor", naRef.str "HAM"]).calls
        = [CatalogCall.findByIdentAndFreq
            (f_navinfo_pos env0 [naRef.str "vor", naRef.str "HAM"]).1 id Double.zero type]
      ∧ naRef.vec [hashForNavRecord env0 hamVor env0.aircraft_position] = naRef.vec
          ((env0.findByIdentAndFreq
              (f_navinfo_pos env0 [naRef.str "vor", naRef.str "HAM"]).1 id Double.zero type).map
            (fun n => hashForNavRecord env0 n
              (f_navinfo_pos env0 [naRef.str "vor", naRef.str "HAM"]).1)) :=
  match navinfo_records env0 [naRef.str "vor", naRef.str "HAM"]
      (naRef.vec [hashForNavRecord env0 hamVor env0.aircraft_position]) rfl with
  | ⟨id, type, h⟩ => ⟨id, type, h.1, h.2.1⟩

/-! ## `magvar` and `bucketPath` -/

theorem geodOfHash_error {ref : naRef} {f : Fault} (h : geodOfHash ref = Except.error f) :
    f = Fault.nullDeref := by
  unfold geodOfHash geodFromHash at h
  by_cases h1 : naIsHash ref = true
  · by_cases h2 : naIsNil (naHash_cget ref "_positioned") = true
    · by_cases h3 : naIsNil (naHash_cget ref "_waypt") = true
      · by_cases h4 : (naIsNum (naHash_cget ref "lat") && naIsNum (naHash_cget ref "lon")) = true
        · simp [h1, h2, h3, h4] at h
        · simp [h1, h2, h3, h4] at h
      · cases h5 : wayptGhost (naHash_cget ref "_waypt") <;> simp [h1, h2, h3, h5] at h
        exact h.symm
    · cases h5 : positionedGhost (naHash_cget ref "_positioned") <;> simp [h1, h2, h5] at h
      exact h.symm
  · simp [h1] at h

theorem magvar_pos_one (e : Env) (a0 : naRef) :
    f_magvar_pos e [a0]
      = (match geodOfHash a0 with
        | Except.error f => Except.error f
        | Except.ok (some p) => Except.ok p
        | Except.ok none =>
          Except.error (Fault.runtimeError
            "magvar() expects no arguments, a positioned hash or lat,lon pair")) := by
  cases hg : geodOfHash a0 with
  | error f => simp [f_magvar_pos, arg, geodFromHash_eq, hg]
  | ok o => cases o <;> simp [f_magvar_pos, arg, geodFromHash_eq, hg]

theorem tilePath_pos_one (e : Env) (a0 : naRef) :
    f_tilePath_pos e [a0]
      = (match geodOfHash a0 with
        | Except.error f => Except.error f
        | Except.ok (some p) => Except.ok p
        | Except.ok none =>
          Except.error (Fault.runtimeError
            "bucketPath() expects no arguments, a positioned hash or lat,lon pair")) := by
  cases hg : geodOfHash a0 with
  | error f => simp [f_tilePath_pos, arg, geodFromHash_eq, hg]
  | ok o => cases o <;> simp [f_tilePath_pos, arg, geodFromHash_eq, hg]

theorem magvar_pos_two (e : Env) (a0 a1 : naRef) :
    f_magvar_pos e [a0, a1]
      = (if naIsNum a0 && naIsNum a1 then
          Except.ok { lat := numOf a0, lon := numOf a1, elev := Double.zero }
        else Except.error (Fault.runtimeError
          "magvar() expects no arguments, a positioned hash or lat,lon pair")) := by
  by_cases hn : (naIsNum a0 && naIsNum a1) = true
  · simp [f_magvar_pos, arg, hn, SGGeod.fromDeg]
  · simp [f_magvar_pos, arg, hn]

theorem tilePath_pos_two (e : Env) (a0 a1 : naRef) :
    f_tilePath_pos e [a0, a1]
      = (if naIsNum a0 && naIsNum a1 then
          Except.ok { lat := numOf a0, lon := numOf a1, elev := Double.zero }
        else Except.error (Fault.runtimeError
          "bucketPath() expects no arguments, a positioned hash or lat,lon pair")) := by
  by_cases hn : (naIsNum a0 && naIsNum a1) = true
  · simp [f_tilePath_pos, arg, hn, SGGeod.fromDeg]
  · simp [f_tilePath_pos, arg, hn]

/-- The position chains of `magvar` and `bucketPath` agree on every argument
list: the same position when one succeeds, a runtime error of one when the
other raises one, a null-pointer read of one when the other makes one. -/
theorem magvar_tilePath_agree (e : Env) (args : List naRef) :
    (∀ p, f_magvar_pos e args = Except.ok p ↔ f_tilePath_pos e args = Except.ok p)
    ∧ (f_magvar_pos e args = Except.error (Fault.runtimeError
          "magvar() expects no arguments, a positioned hash or lat,lon pair")
        ↔ f_tilePath_pos e args = Except.error (Fault.runtimeError
          "bucketPath() expects no arguments, a positioned hash or lat,lon pair"))
    ∧ (f_magvar_pos e args = Except.error Fault.nullDeref
        ↔ f_tilePath_pos e args = Except.error Fault.nullDeref) := by
  rcases args with _ | ⟨a0, _ | ⟨a1, _ | ⟨a2, rest⟩⟩⟩
  · refine ⟨fun p => Iff.rfl, ?_, ?_⟩ <;> simp [f_magvar_pos, f_tilePath_pos]
  · rw [magvar_pos_one, tilePath_pos_one]
    cases hg : geodOfHash a0 with
    | error f =>
      have := geodOfHash_error hg
      subst this
      simp
    | ok o => cases o <;> simp
  · rw [magvar_pos_two, tilePath_pos_two]
    by_cases hn : (naIsNum a0 && naIsNum a1) = true
    · simp [hn]
    · simp [hn]
  · rw [magvar_pos_many e (a0 :: a1 :: a2 :: rest) (by simp),
      tilePath_pos_many e (a0 :: a1 :: a2 :: rest) (by simp)]
    simp

/-- When the position chain of `magvar` succeeds: no argument, one record
whose position `geodFromHash` reads, or two numbers. -/
theorem magvar_pos_ok_iff (e : Env) (args : List naRef) (p : SGGeod) :
    f_magvar_pos e args = Except.ok p
      ↔ (args = [] ∧ p = e.aircraft_position)
        ∨ (∃ P, args = [P] ∧ geodFromHash P e.aircraft_position = Except.ok (true, p))
        ∨ (∃ a b, args = [naRef.num a, naRef.num b]
            ∧ p = { lat := a, lon := b, elev := Double.zero }) := by
  rcases args with _ | ⟨a0, _ | ⟨a1, _ | ⟨a2, rest⟩⟩⟩
  · constructor
    · intro h
      simp [f_magvar_pos] at h
      exact Or.inl ⟨rfl, h.symm⟩
    · rintro (⟨-, rfl⟩ | ⟨P, h, -⟩ | ⟨a, b, h, -⟩)
      · rfl
      · simp at h
      · simp at h
  · rw [magvar_pos_one]
    constructor
    · intro h
      refine Or.inr (Or.inl ⟨a0, rfl, ?_⟩)
      rw [geodFromHash_eq]
      cases hg : geodOfHash a0 with
      | error f => simp [hg] at h
      | ok o =>
        cases o with
        | none => simp [hg] at h
        | some q =>
          simp [hg] at h
          simp [h]
    · rintro (⟨h, -⟩ | ⟨P, h, hP⟩ | ⟨a, b, h, -⟩)
      · simp at h
      · simp only [List.cons.injEq, and_true] at h
        subst h
        rw [geodOfHash_of_true hP]
      · simp at h
  · rw [magvar_pos_two]
    constructor
    · intro h
      by_cases hn : (naIsNum a0 && naIsNum a1) = true
      · rw [if_pos hn] at h
        simp only [Bool.and_eq_true] at hn
        obtain ⟨d0, rfl⟩ := (isNum_iff a0).1 hn.1
        obtain ⟨d1, rfl⟩ := (isNum_iff a1).1 hn.2
        simp only [numOf, Except.ok.injEq] at h
        exact Or.inr (Or.inr ⟨d0, d1, rfl, h.symm⟩)
      · rw [if_neg hn] at h
        simp at h
    · rintro (⟨h, -⟩ | ⟨P, h, -⟩ | ⟨a, b, h, rfl⟩)
      · simp at h
      · simp at h
      · simp only [List.cons.injEq, and_true] at h
        obtain ⟨rfl, rfl⟩ := h
        simp [naIsNum, numOf]
  · rw [magvar_pos_many e (a0 :: a1 :: a2 :: rest) (by simp)]
    constructor
    · intro h
      simp at h
    · rintro (⟨h, -⟩ | ⟨P, h, -⟩ | ⟨a, b, h, -⟩) <;> simp at h

/-- C13 (the code at the failing input): for the one-argument call with the
record `{ _positioned: 1 }`, which is none of the three accepted shapes,
`magvar` and `bucketPath` both read a position through the null pointer that
`positionedGhost` returned; neither raises a runtime error. -/
theorem magvar_tilePath_null_handle :
    f_magvar env0 [numberAsPositioned] = Except.error Fault.nullDeref
    ∧ f_tilePath env0 [numberAsPositioned] = Except.error Fault.nullDeref
    ∧ geodFromHash numberAsPositioned env0.aircraft_position = Except.error Fault.nullDeref :=
  ⟨rfl, rfl, rfl⟩

/-- C14 (the code at the failing input): for a record whose `_positioned`
field is a number or a ghost of another type, and for a record whose `_waypt`
field is a number, `geodFromHash` neither returns true nor false: it reads
the position through the null pointer that `positionedGhost` / `wayptGhost`
returned. -/
theorem geodFromHash_null_handle :
    positionedGhost (naRef.num Double.one) = none
    ∧ geodFromHash numberAsPositioned SGGeod.default = Except.error Fault.nullDeref
    ∧ geodFromHash (naRef.hash [("_positioned", naRef.ghost (Ghost.foreign "prop"))])
        SGGeod.default = Except.error Fault.nullDeref
    ∧ wayptGhost (naRef.num Double.one) = none
    ∧ geodFromHash numberAsWaypt SGGeod.default = Except.error Fault.nullDeref :=
  ⟨rfl, rfl, rfl, rfl, rfl⟩

/-- C15 (the code at the failing inputs): for the waypoint made from the
airport `ksfo`, whose type is an airport type, `waypoint.airport()` returns
nil; for the waypoint made from the navaid `hamVor`, whose type is not, it
reads the navaid through a pointer cast to `FGAirport` to build an airport
record.  `waypoint.runway()` returns the runway record for a waypoint made
from a runway and nil for the one made from the airport. -/
theorem waypoint_airport_inverted :
    isAirportType (FGPositioned.airport ksfo) = true
    ∧ f_waypoint_airport env0 wayptAtKsfo [] = Except.ok naNil
    ∧ isAirportType (FGPositioned.nav hamVor) = false
    ∧ f_waypoint_airport env0 wayptAtHam [] = Except.error Fault.badCast
    ∧ f_waypoint_runway env0 wayptAtRunway [] = Except.ok (hashForRunway env0 rwy28L)
    ∧ f_waypoint_runway env0 wayptAtKsfo [] = Except.ok naNil :=
  ⟨rfl, rfl, rfl, rfl, rfl, rfl⟩

/-- C5 (the code at the failing input): for the record `{ lat: 10, lon: 20 }`,
a position-capable record by its plain `lat` / `lon` fields,
`courseAndDistance` resolves the record with latitude 20.0 and longitude
10.0 in each shape it occurs in: as the destination of (P) and of (a, b, P),
as the origin of (P, a, b), and as both points of (P, P); the numbers a = 1.0,
b = 100.0 of the same calls are read as latitude 1.0, longitude 100.0.  The
record's position comes from `geodFromHash`, which passes its two fields to
`fromDeg` in the order latitude, longitude. -/
theorem courseAndDistance_latlon_record_swapped :
    f_courseAndDistance_points env0 [latLonRecord]
        = Except.ok (env0.aircraft_position,
            { lat := Double.twenty, lon := Double.ten, elev := Double.zero })
    ∧ f_courseAndDistance_points env0 [latLonRecord, latLonRecord]
        = Except.ok ({ lat := Double.twenty, lon := Double.ten, elev := Double.zero },
            { lat := Double.twenty, lon := Double.ten, elev := Double.zero })
    ∧ f_courseAndDistance_points env0
          [latLonRecord, naRef.num Double.one, naRef.num Double.hundred]
        = Except.ok ({ lat := Double.twenty, lon := Double.ten, elev := Double.zero },
            { lat := Double.one, lon := Double.hundred, elev := Double.zero })
    ∧ f_courseAndDistance_points env0
          [naRef.num Double.one, naRef.num Double.hundred, latLonRecord]
        = Except.ok ({ lat := Double.one, lon := Double.hundred, elev := Double.zero },
            { lat := Double.twenty, lon := Double.ten, elev := Double.zero })
    ∧ naHash_cget latLonRecord "lat" = naRef.num Double.ten
    ∧ naHash_cget latLonRecord "lon" = naRef.num Double.twenty
    ∧ naIsNil (naHash_cget latLonRecord "_positioned") = true
    ∧ naIsNil (naHash_cget latLonRecord "_waypt") = true
    ∧ SGGeod.getLatitudeDeg { lat := Double.twenty, lon := Double.ten, elev := Double.zero }
        ≠ Double.ten :=
  ⟨rfl, rfl, rfl, rfl, rfl, rfl, rfl, rfl, by decide⟩

end NasalPositioned
